import Mathlib

/-!
# urbsniffer: the USB filter driver of `filter.c`

A shallow embedding of the request handlers of `filter.c` and of the capture
buffer they write (`g_aMouseData`, `g_lMouseDataLength`), followed by the
properties proved about them.

Conventions of the embedding.

* The driver state is passed explicitly (`DriverState`): the two globals of
  `filter.c` together with what the driver can observe of the framework, namely
  the calls it has made into it (`trace`) and the status the framework keeps
  for each request.
* A C pointer is an `Option` (`none` is `NULL`); the memory a buffer pointer
  refers to is the function giving the byte at each offset.
* A handler that can run into undefined behaviour of C (signed overflow of
  the `LONG` cursor, a store outside the array, a read through a `NULL`
  pointer) returns `Option`: `none` is that undefined behaviour.
* The lower driver is a parameter (`IoTargetBehaviour`): it decides, for each
  submission, whether it is accepted or rejected and with which status.
-/

namespace UrbSniffer

/-! ## Constants -/

/-- Number of slots: `#define MOUSE_ARRAY_LENGTH 255`. -/
abbrev MOUSE_ARRAY_LENGTH : Nat := 255

/-- Bytes per slot: `#define MOUSE_DATA_DEFAULT 8`. -/
abbrev MOUSE_DATA_DEFAULT : Nat := 8

/-- Control code of a URB submission. Its value is that of the WDK header
`usbioctl.h`: `CTL_CODE(FILE_DEVICE_USB, USB_SUBMIT_URB, METHOD_NEITHER, FILE_ANY_ACCESS)`. -/
def IOCTL_INTERNAL_USB_SUBMIT_URB : Nat := 0x00220003

/-- URB function code of a bulk or interrupt transfer (WDK header `usb.h`). -/
def URB_FUNCTION_BULK_OR_INTERRUPT_TRANSFER : Nat := 0x0009

/-- Transfer flag of a transfer from the device to the host (WDK header `usb.h`). -/
def USBD_TRANSFER_DIRECTION_IN : Nat := 0x00000001

/-- Largest value of a 32-bit signed `LONG`. -/
def LONG_MAX : Int := 2147483647

/-- The success status of the WDK header `ntstatus.h`. -/
def STATUS_SUCCESS : Int := 0

/-- The test `NT_SUCCESS` of the WDK header `ntdef.h`: the status is not negative. -/
def NT_SUCCESS (Status : Int) : Bool := decide (0 ≤ Status)

/-! ## Data model -/

/-- One byte of memory. -/
abbrev BYTE := Fin 256

/-- Status code of the framework (`NTSTATUS` is a `LONG`). -/
abbrev NTSTATUS := Int

/-- One row of `g_aMouseData`: `CHAR [MOUSE_DATA_DEFAULT]`. -/
abbrev tMouseData := Fin MOUSE_DATA_DEFAULT → BYTE

/-- The fields of a `URB` that `filter.c` reads. -/
structure URB where
  /-- Field `UrbHeader.Function`. -/
  Function : Nat
  /-- Field `UrbBulkOrInterruptTransfer.TransferBufferLength`. -/
  TransferBufferLength : Nat
  /-- Field `UrbBulkOrInterruptTransfer.TransferFlags`. -/
  TransferFlags : Nat
  /-- Field `UrbBulkOrInterruptTransfer.TransferBuffer`: a pointer, `NULL` when the
  buffer is described by `TransferBufferMDL` instead; otherwise the byte at each offset. -/
  TransferBuffer : Option (Nat → BYTE)

/-- The stack location of an IRP: `Parameters.Others.Argument1` read as a `PURB`. -/
structure IO_STACK_LOCATION where
  Argument1 : Option URB

/-- An IRP: its current stack location, which may be `NULL`. -/
structure IRP where
  CurrentStackLocation : Option IO_STACK_LOCATION

/-- A framework request: its handle and the IRP behind it, which may be `NULL`. -/
structure WDFREQUEST where
  Handle : Nat
  Irp : Option IRP

/-- Handle of an I/O target. -/
abbrev WDFIOTARGET := Nat

/-- A framework device: the default I/O target below it. -/
structure WDFDEVICE where
  IoTarget : WDFIOTARGET

/-- A framework queue: the device it belongs to. -/
structure WDFQUEUE where
  Device : WDFDEVICE

/-- The send options used by `filter.c`. -/
inductive SendOptions where
  | SEND_AND_FORGET
  | NO_SEND_OPTIONS
  deriving DecidableEq, Repr

/-- The calls of the driver into the framework that have an effect on a request. -/
inductive Event where
  | RequestFormatUsingCurrentType (Request : WDFREQUEST)
  | RequestSetCompletionRoutine (Request : WDFREQUEST)
  | RequestSend (Request : WDFREQUEST) (Target : WDFIOTARGET) (options : SendOptions)
  | RequestComplete (Request : WDFREQUEST) (status : NTSTATUS)

/-- What the target does with a submission. -/
inductive SendOutcome where
  | accepted
  | rejected (status : NTSTATUS)
  deriving DecidableEq, Repr

/-- The lower driver: from the calls made so far and the submission, its outcome. -/
abbrev IoTargetBehaviour := List Event → WDFREQUEST → WDFIOTARGET → SendOptions → SendOutcome

/-- The `IoStatus` block of the completion parameters. -/
structure IO_STATUS_BLOCK where
  Status : NTSTATUS

/-- The completion parameters handed to a completion routine. -/
structure WDF_REQUEST_COMPLETION_PARAMS where
  IoStatus : IO_STATUS_BLOCK

/-- The state the driver runs in: the globals of `filter.c` and the framework side. -/
structure DriverState where
  /-- Global `CHAR g_aMouseData[MOUSE_ARRAY_LENGTH][MOUSE_DATA_DEFAULT]`. -/
  g_aMouseData : Fin MOUSE_ARRAY_LENGTH → tMouseData
  /-- Global `LONG g_lMouseDataLength`, the write cursor. -/
  g_lMouseDataLength : Int
  /-- Calls made into the framework, oldest first. -/
  trace : List Event
  /-- Status the framework holds for each request handle. -/
  requestStatus : Nat → NTSTATUS

/-- State at driver load: the globals are zero, `LONG g_lMouseDataLength = 0`. -/
def DriverState.initial : DriverState where
  g_aMouseData := fun _ _ => 0
  g_lMouseDataLength := 0
  trace := []
  requestStatus := fun _ => 0

/-! ## The framework calls used by `filter.c` -/

/-- `WdfIoQueueGetDevice`. -/
def WdfIoQueueGetDevice (Queue : WDFQUEUE) : WDFDEVICE := Queue.Device

/-- `WdfDeviceGetIoTarget`. -/
def WdfDeviceGetIoTarget (device : WDFDEVICE) : WDFIOTARGET := device.IoTarget

/-- `WdfRequestWdmGetIrp`. -/
def WdfRequestWdmGetIrp (Request : WDFREQUEST) : Option IRP := Request.Irp

/-- `IoGetCurrentIrpStackLocation`. -/
def IoGetCurrentIrpStackLocation (pIrp : IRP) : Option IO_STACK_LOCATION :=
  pIrp.CurrentStackLocation

/-- `WdfRequestSend`: the submission is recorded; it returns `TRUE` when the
target accepts, and on rejection `FALSE`, the request then carrying the
rejection status. -/
def WdfRequestSend (env : IoTargetBehaviour) (s : DriverState) (Request : WDFREQUEST)
    (Target : WDFIOTARGET) (options : SendOptions) : Bool × DriverState :=
  match env s.trace Request Target options with
  | SendOutcome.accepted =>
      (true, { s with trace := s.trace ++ [Event.RequestSend Request Target options] })
  | SendOutcome.rejected status =>
      (false, { s with
        trace := s.trace ++ [Event.RequestSend Request Target options]
        requestStatus := fun h => if h = Request.Handle then status else s.requestStatus h })

/-- `WdfRequestGetStatus`. -/
def WdfRequestGetStatus (s : DriverState) (Request : WDFREQUEST) : NTSTATUS :=
  s.requestStatus Request.Handle

/-- `WdfRequestComplete`. -/
def WdfRequestComplete (s : DriverState) (Request : WDFREQUEST) (status : NTSTATUS) :
    DriverState :=
  { s with trace := s.trace ++ [Event.RequestComplete Request status] }

/-- `WdfRequestFormatRequestUsingCurrentType`. -/
def WdfRequestFormatRequestUsingCurrentType (s : DriverState) (Request : WDFREQUEST) :
    DriverState :=
  { s with trace := s.trace ++ [Event.RequestFormatUsingCurrentType Request] }

/-- `WdfRequestSetCompletionRoutine` with `FilterRequestCompletionRoutine`, the one
completion routine of the driver, and `WDF_NO_CONTEXT`. -/
def WdfRequestSetCompletionRoutine (s : DriverState) (Request : WDFREQUEST) : DriverState :=
  { s with trace := s.trace ++ [Event.RequestSetCompletionRoutine Request] }

/-- `RtlCopyMemory` into a row: the first `Length` bytes are taken from `Source`. -/
def RtlCopyMemory (Destination : tMouseData) (Source : Nat → BYTE) (Length : Nat) :
    tMouseData :=
  fun j => if j.val < Length then Source j.val else Destination j

/-! ## The forwarding routines -/

/-- `FilterForwardRequest` (lines 435-467). -/
def FilterForwardRequest (env : IoTargetBehaviour) (s : DriverState) (Request : WDFREQUEST)
    (Target : WDFIOTARGET) : DriverState :=
  let options := SendOptions.SEND_AND_FORGET
  match WdfRequestSend env s Request Target options with
  | (ret, s1) =>
    if ret = false then
      let status := WdfRequestGetStatus s1 Request
      WdfRequestComplete s1 Request status
    else s1

/-- `FilterForwardRequestWithCompletionRoutine` (lines 471-510). -/
def FilterForwardRequestWithCompletionRoutine (env : IoTargetBehaviour) (s : DriverState)
    (Request : WDFREQUEST) (Target : WDFIOTARGET) : DriverState :=
  let s1 := WdfRequestFormatRequestUsingCurrentType s Request
  let s2 := WdfRequestSetCompletionRoutine s1 Request
  match WdfRequestSend env s2 Request Target SendOptions.NO_SEND_OPTIONS with
  | (ret, s3) =>
    if ret = false then
      let status := WdfRequestGetStatus s3 Request
      WdfRequestComplete s3 Request status
    else s3

/-- `FilterRequestCompletionRoutine` (lines 512-545); `Target` and `Context` are unreferenced. -/
def FilterRequestCompletionRoutine (s : DriverState) (Request : WDFREQUEST)
    (_Target : WDFIOTARGET) (CompletionParams : WDF_REQUEST_COMPLETION_PARAMS) : DriverState :=
  WdfRequestComplete s Request CompletionParams.IoStatus.Status

/-! ## The queue handlers -/

/-- `FilterEvtWdfIoQueueIoDefault` (lines 202-214). -/
def FilterEvtWdfIoQueueIoDefault (env : IoTargetBehaviour) (s : DriverState)
    (Queue : WDFQUEUE) (Request : WDFREQUEST) : DriverState :=
  let device := WdfIoQueueGetDevice Queue
  FilterForwardRequest env s Request (WdfDeviceGetIoTarget device)

/-- `FilterEvtWdfIoQueueIoRead` (lines 216-231); `Length` is unreferenced. -/
def FilterEvtWdfIoQueueIoRead (env : IoTargetBehaviour) (s : DriverState)
    (Queue : WDFQUEUE) (Request : WDFREQUEST) (_Length : Nat) : DriverState :=
  let device := WdfIoQueueGetDevice Queue
  FilterForwardRequest env s Request (WdfDeviceGetIoTarget device)

/-- Lines 295-296: `if (++g_lMouseDataLength >= MOUSE_ARRAY_LENGTH) g_lMouseDataLength = 0;`.
The increment of a `LONG` at `LONG_MAX` is undefined. -/
def advanceCursor (s : DriverState) : Option DriverState :=
  if s.g_lMouseDataLength + 1 > LONG_MAX then none
  else
    let s1 := { s with g_lMouseDataLength := s.g_lMouseDataLength + 1 }
    if s1.g_lMouseDataLength ≥ (MOUSE_ARRAY_LENGTH : Int) then
      some { s1 with g_lMouseDataLength := 0 }
    else some s1

/-- Line 302: `RtlCopyMemory(g_aMouseData[g_lMouseDataLength], TransferBuffer, MOUSE_DATA_DEFAULT)`.
A row index outside the array is undefined, and so is the copy from a `NULL`
`TransferBuffer`: the code does not test this pointer. -/
def copyToCursorSlot (s : DriverState) (pUrb : URB) : Option DriverState :=
  if h : 0 ≤ s.g_lMouseDataLength ∧ s.g_lMouseDataLength < (MOUSE_ARRAY_LENGTH : Int) then
    let i : Fin MOUSE_ARRAY_LENGTH := ⟨s.g_lMouseDataLength.toNat, by omega⟩
    match pUrb.TransferBuffer with
    | none => none
    | some Source =>
      some { s with
        g_aMouseData := Function.update s.g_aMouseData i
          (RtlCopyMemory (s.g_aMouseData i) Source MOUSE_DATA_DEFAULT) }
  else none

/-- Lines 288-304: the case `URB_FUNCTION_BULK_OR_INTERRUPT_TRANSFER` of the inner switch.
Both `goto Exit` and `break` lead to the forwarding call, so the result is the state
in which that call is made. -/
def caseBulkOrInterruptTransfer (s : DriverState) (pUrb : URB) : Option DriverState :=
  if pUrb.TransferBufferLength ≠ MOUSE_DATA_DEFAULT then some s
  else
    match advanceCursor s with
    | none => none
    | some s1 =>
      if pUrb.TransferFlags &&& USBD_TRANSFER_DIRECTION_IN = 0 then some s1
      else copyToCursorSlot s1 pUrb

/-- Lines 255-347 of `FilterEvtWdfIoQueueIoInternalDeviceControl`: everything before the
label `Exit`. In the inner switch every label other than
`URB_FUNCTION_BULK_OR_INTERRUPT_TRANSFER`, and `default`, is a bare `break`; the outer
switch has the single case `IOCTL_INTERNAL_USB_SUBMIT_URB`. -/
def inspectRequest (s : DriverState) (Request : WDFREQUEST) (IoControlCode : Nat) :
    Option DriverState :=
  match WdfRequestWdmGetIrp Request with
  | none => some s
  | some pIrp =>
    match IoGetCurrentIrpStackLocation pIrp with
    | none => some s
    | some location =>
      if IoControlCode = IOCTL_INTERNAL_USB_SUBMIT_URB then
        match location.Argument1 with
        | none => some s
        | some pUrb =>
          if pUrb.Function = URB_FUNCTION_BULK_OR_INTERRUPT_TRANSFER then
            caseBulkOrInterruptTransfer s pUrb
          else some s
      else some s

/-- `FilterEvtWdfIoQueueIoInternalDeviceControl` (lines 234-355); the two buffer
lengths are unreferenced. -/
def FilterEvtWdfIoQueueIoInternalDeviceControl (env : IoTargetBehaviour) (s : DriverState)
    (Queue : WDFQUEUE) (Request : WDFREQUEST) (_OutputBufferLength _InputBufferLength : Nat)
    (IoControlCode : Nat) : Option DriverState :=
  let device := WdfIoQueueGetDevice Queue
  match inspectRequest s Request IoControlCode with
  | none => none
  | some s1 => some (FilterForwardRequest env s1 Request (WdfDeviceGetIoTarget device))

/-- `FilterEvtIoDeviceControl` (lines 357-433). The switch over `IoControlCode` has no
case, so `status` is still `STATUS_SUCCESS` at the test of line 411;
`FORWARD_REQUEST_WITH_COMPLETION` is the build-time switch of `filter.h`. -/
def FilterEvtIoDeviceControl (FORWARD_REQUEST_WITH_COMPLETION : Bool) (env : IoTargetBehaviour)
    (s : DriverState) (Queue : WDFQUEUE) (Request : WDFREQUEST)
    (_OutputBufferLength _InputBufferLength : Nat) (_IoControlCode : Nat) : DriverState :=
  let status := STATUS_SUCCESS
  let device := WdfIoQueueGetDevice Queue
  if NT_SUCCESS status = false then
    WdfRequestComplete s Request status
  else if FORWARD_REQUEST_WITH_COMPLETION then
    FilterForwardRequestWithCompletionRoutine env s Request (WdfDeviceGetIoTarget device)
  else
    FilterForwardRequest env s Request (WdfDeviceGetIoTarget device)

/-! ## Dispatch -/

/-- A request as the framework hands it to one of the four callbacks that
`FilterEvtDeviceAdd` registers on the default queue (lines 184-187). -/
inductive Dispatch where
  | IoDefault (Queue : WDFQUEUE) (Request : WDFREQUEST)
  | IoRead (Queue : WDFQUEUE) (Request : WDFREQUEST) (Length : Nat)
  | IoInternalDeviceControl (Queue : WDFQUEUE) (Request : WDFREQUEST)
      (OutputBufferLength InputBufferLength : Nat) (IoControlCode : Nat)
  | IoDeviceControl (Queue : WDFQUEUE) (Request : WDFREQUEST)
      (OutputBufferLength InputBufferLength : Nat) (IoControlCode : Nat)

/-- The queue a dispatch arrives on. -/
def Dispatch.queue : Dispatch → WDFQUEUE
  | Dispatch.IoDefault Queue _ => Queue
  | Dispatch.IoRead Queue _ _ => Queue
  | Dispatch.IoInternalDeviceControl Queue _ _ _ _ => Queue
  | Dispatch.IoDeviceControl Queue _ _ _ _ => Queue

/-- The request of a dispatch. -/
def Dispatch.request : Dispatch → WDFREQUEST
  | Dispatch.IoDefault _ Request => Request
  | Dispatch.IoRead _ Request _ => Request
  | Dispatch.IoInternalDeviceControl _ Request _ _ _ => Request
  | Dispatch.IoDeviceControl _ Request _ _ _ => Request

/-- The framework calls the callback registered for the kind of request:
`EvtIoDefault`, `EvtIoRead`, `EvtIoInternalDeviceControl`, `EvtIoDeviceControl`. -/
def deliver (FORWARD_REQUEST_WITH_COMPLETION : Bool) (env : IoTargetBehaviour)
    (s : DriverState) : Dispatch → Option DriverState
  | Dispatch.IoDefault Queue Request =>
      some (FilterEvtWdfIoQueueIoDefault env s Queue Request)
  | Dispatch.IoRead Queue Request Length =>
      some (FilterEvtWdfIoQueueIoRead env s Queue Request Length)
  | Dispatch.IoInternalDeviceControl Queue Request OutputBufferLength InputBufferLength
      IoControlCode =>
      FilterEvtWdfIoQueueIoInternalDeviceControl env s Queue Request OutputBufferLength
        InputBufferLength IoControlCode
  | Dispatch.IoDeviceControl Queue Request OutputBufferLength InputBufferLength
      IoControlCode =>
      some (FilterEvtIoDeviceControl FORWARD_REQUEST_WITH_COMPLETION env s Queue Request
        OutputBufferLength InputBufferLength IoControlCode)

/-- Requests handled one after another, each handler returning before the next starts. -/
def run (FORWARD_REQUEST_WITH_COMPLETION : Bool) (env : IoTargetBehaviour) :
    DriverState → List Dispatch → Option DriverState
  | s, [] => some s
  | s, d :: ds =>
    match deliver FORWARD_REQUEST_WITH_COMPLETION env s d with
    | none => none
    | some s1 => run FORWARD_REQUEST_WITH_COMPLETION env s1 ds

/-! ## Vocabulary of the properties -/

/-- The URB behind a request: IRP, stack location and `Argument1` all non-`NULL`. -/
def requestUrb (Request : WDFREQUEST) : Option URB :=
  match Request.Irp with
  | none => none
  | some pIrp =>
    match pIrp.CurrentStackLocation with
    | none => none
    | some location => location.Argument1

/-- The URB a dispatch submits: an internal device control with control code
`IOCTL_INTERNAL_USB_SUBMIT_URB` whose request carries a URB. -/
def Dispatch.urb : Dispatch → Option URB
  | Dispatch.IoInternalDeviceControl _ Request _ _ IoControlCode =>
      if IoControlCode = IOCTL_INTERNAL_USB_SUBMIT_URB then requestUrb Request else none
  | _ => none

/-- A URB qualifies for capture: bulk or interrupt transfer, eight bytes, inbound. -/
def URB.qualifies (u : URB) : Bool :=
  decide (u.Function = URB_FUNCTION_BULK_OR_INTERRUPT_TRANSFER) &&
  decide (u.TransferBufferLength = MOUSE_DATA_DEFAULT) &&
  decide (u.TransferFlags &&& USBD_TRANSFER_DIRECTION_IN ≠ 0)

/-- The first `MOUSE_DATA_DEFAULT` bytes of the transfer buffer of a URB (zero bytes
when the buffer pointer is `NULL`). -/
def URB.payload (u : URB) : tMouseData :=
  fun j =>
    match u.TransferBuffer with
    | some Source => Source j.val
    | none => 0

/-- A dispatch qualifies for capture when the URB it submits does. -/
def Dispatch.qualifies (d : Dispatch) : Bool :=
  match d.urb with
  | some u => u.qualifies
  | none => false

/-- The copy of line 302, if the dispatch gets to it, has a buffer to read: a dispatch
that qualifies for capture has a `TransferBuffer` that is not `NULL`. -/
def Dispatch.readable (d : Dispatch) : Bool :=
  match d.urb with
  | some u => !u.qualifies || u.TransferBuffer.isSome
  | none => true

/-- The payload of a dispatch: that of its URB (zero bytes when it has none). -/
def Dispatch.payload (d : Dispatch) : tMouseData :=
  match d.urb with
  | some u => u.payload
  | none => fun _ => 0

/-- The submissions among some events: which request went to which target. -/
def submissions : List Event → List (WDFREQUEST × WDFIOTARGET)
  | [] => []
  | Event.RequestSend Request Target _ :: evs => (Request, Target) :: submissions evs
  | _ :: evs => submissions evs

/-- The completions among some events: which request was completed with which status. -/
def completions : List Event → List (WDFREQUEST × NTSTATUS)
  | [] => []
  | Event.RequestComplete Request status :: evs => (Request, status) :: completions evs
  | _ :: evs => completions evs

/-- The same state with other contents of the capture buffer. -/
def DriverState.withCapture (s : DriverState) (a : Fin MOUSE_ARRAY_LENGTH → tMouseData)
    (c : Int) : DriverState :=
  { s with g_aMouseData := a, g_lMouseDataLength := c }

/-- The life of one request sent in completion-intercepted mode to a target that
either rejects the submission synchronously or accepts it and later calls the
registered completion routine once, with final status `S`. -/
def interceptedLife (env : IoTargetBehaviour) (s : DriverState) (Request : WDFREQUEST)
    (Target : WDFIOTARGET) (S : NTSTATUS) : DriverState :=
  let s1 := FilterForwardRequestWithCompletionRoutine env s Request Target
  match env (s.trace ++ [Event.RequestFormatUsingCurrentType Request,
      Event.RequestSetCompletionRoutine Request]) Request Target
      SendOptions.NO_SEND_OPTIONS with
  | SendOutcome.accepted =>
      FilterRequestCompletionRoutine s1 Request Target { IoStatus := { Status := S } }
  | SendOutcome.rejected _ => s1

/-! ## Parallel dispatch

The default queue is configured with `WdfIoQueueDispatchParallel` (lines 174-178), so
several calls of `FilterEvtWdfIoQueueIoInternalDeviceControl` may be in progress at once.
The model below is the coarsest one: each statement of the capture site runs atomically,
and the statements of different calls interleave. -/

/-- Calls in progress: the shared state, the program point of each call
(0: before line 291, 1: between lines 296 and 299, 2: past line 302), and the copies
performed so far as (call, row index), oldest first. -/
structure Interleaving where
  state : DriverState
  pcs : List Nat
  writes : List (Nat × Int)

/-- One atomic step of call `t`, which handles the bulk or interrupt transfer `urbs[t]`. -/
def stepCall (urbs : List URB) (x : Interleaving) (t : Nat) : Option Interleaving :=
  match urbs.get? t, x.pcs.get? t with
  | some pUrb, some 0 =>
    if pUrb.TransferBufferLength ≠ MOUSE_DATA_DEFAULT then
      some { x with pcs := x.pcs.set t 2 }
    else
      match advanceCursor x.state with
      | none => none
      | some s1 => some { x with state := s1, pcs := x.pcs.set t 1 }
  | some pUrb, some 1 =>
    if pUrb.TransferFlags &&& USBD_TRANSFER_DIRECTION_IN = 0 then
      some { x with pcs := x.pcs.set t 2 }
    else
      match copyToCursorSlot x.state pUrb with
      | none => none
      | some s1 =>
        some { state := s1, pcs := x.pcs.set t 2,
               writes := x.writes ++ [(t, x.state.g_lMouseDataLength)] }
  | _, _ => some x

/-- The calls take their steps in the order the schedule gives. -/
def runSchedule (urbs : List URB) : Interleaving → List Nat → Option Interleaving
  | x, [] => some x
  | x, t :: ts =>
    match stepCall urbs x t with
    | none => none
    | some x1 => runSchedule urbs x1 ts

/-! ## Concrete requests -/

/-- A target that accepts every submission. -/
def acceptAll : IoTargetBehaviour := fun _ _ _ _ => SendOutcome.accepted

/-- A target that rejects every submission with the given status. -/
def rejectAll (E : NTSTATUS) : IoTargetBehaviour := fun _ _ _ _ => SendOutcome.rejected E

/-- A queue whose device has target 7. -/
def sampleQueue : WDFQUEUE := { Device := { IoTarget := 7 } }

/-- A request with the given handle that carries the given URB. -/
def requestWithUrb (Handle : Nat) (u : URB) : WDFREQUEST :=
  { Handle := Handle, Irp := some { CurrentStackLocation := some { Argument1 := some u } } }

/-- An inbound bulk or interrupt transfer of the eight given bytes. -/
def inboundReport (bytes : List BYTE) : URB :=
  { Function := URB_FUNCTION_BULK_OR_INTERRUPT_TRANSFER
    TransferBufferLength := 8
    TransferFlags := USBD_TRANSFER_DIRECTION_IN
    TransferBuffer := some (fun n => bytes.getD n 0) }

/-- An outbound bulk or interrupt transfer of eight bytes. -/
def outboundReport (bytes : List BYTE) : URB :=
  { Function := URB_FUNCTION_BULK_OR_INTERRUPT_TRANSFER
    TransferBufferLength := 8
    TransferFlags := 0
    TransferBuffer := some (fun n => bytes.getD n 0) }

/-- An inbound bulk or interrupt transfer of four bytes only. -/
def shortReport : URB :=
  { Function := URB_FUNCTION_BULK_OR_INTERRUPT_TRANSFER
    TransferBufferLength := 4
    TransferFlags := USBD_TRANSFER_DIRECTION_IN
    TransferBuffer := some (fun n => [(9 : BYTE), 9, 9, 9].getD n 0) }

/-- An inbound bulk or interrupt transfer of eight bytes whose buffer is described by an
MDL: `TransferBuffer` is `NULL`. -/
def mdlReport : URB :=
  { Function := URB_FUNCTION_BULK_OR_INTERRUPT_TRANSFER
    TransferBufferLength := 8
    TransferFlags := USBD_TRANSFER_DIRECTION_IN
    TransferBuffer := none }

/-- The inbound report whose payload is its number `k`, low byte first. -/
def markerReport (k : Nat) : URB :=
  inboundReport [Fin.ofNat (k % 256), Fin.ofNat (k / 256), 0, 0, 0, 0, 0, 0]

/-- The dispatch of the `k`-th marker report. -/
def markerDispatch (k : Nat) : Dispatch :=
  Dispatch.IoInternalDeviceControl sampleQueue (requestWithUrb k (markerReport k)) 0 0
    IOCTL_INTERNAL_USB_SUBMIT_URB

/-- The marker reports 1 to `n`, in this order. -/
def markerDispatches (n : Nat) : List Dispatch :=
  (List.range n).map (fun k => markerDispatch (k + 1))

/-! ## Forwarding -/

theorem FilterForwardRequest_eq (env : IoTargetBehaviour) (s : DriverState)
    (Request : WDFREQUEST) (Target : WDFIOTARGET) :
    FilterForwardRequest env s Request Target =
      (match env s.trace Request Target SendOptions.SEND_AND_FORGET with
       | SendOutcome.accepted =>
           { s with trace := s.trace ++
               [Event.RequestSend Request Target SendOptions.SEND_AND_FORGET] }
       | SendOutcome.rejected E =>
           { s with
             trace := s.trace ++
               [Event.RequestSend Request Target SendOptions.SEND_AND_FORGET,
                Event.RequestComplete Request E]
             requestStatus := fun h => if h = Request.Handle then E else s.requestStatus h }) := by
  unfold FilterForwardRequest WdfRequestSend
  cases h : env s.trace Request Target SendOptions.SEND_AND_FORGET <;>
    simp [h, WdfRequestComplete, WdfRequestGetStatus]

theorem FilterForwardRequestWithCompletionRoutine_eq (env : IoTargetBehaviour)
    (s : DriverState) (Request : WDFREQUEST) (Target : WDFIOTARGET) :
    FilterForwardRequestWithCompletionRoutine env s Request Target =
      (match env (s.trace ++ [Event.RequestFormatUsingCurrentType Request,
          Event.RequestSetCompletionRoutine Request]) Request Target
          SendOptions.NO_SEND_OPTIONS with
       | SendOutcome.accepted =>
           { s with trace := s.trace ++
               [Event.RequestFormatUsingCurrentType Request,
                Event.RequestSetCompletionRoutine Request,
                Event.RequestSend Request Target SendOptions.NO_SEND_OPTIONS] }
       | SendOutcome.rejected E =>
           { s with
             trace := s.trace ++
               [Event.RequestFormatUsingCurrentType Request,
                Event.RequestSetCompletionRoutine Request,
                Event.RequestSend Request Target SendOptions.NO_SEND_OPTIONS,
                Event.RequestComplete Request E]
             requestStatus := fun h => if h = Request.Handle then E else s.requestStatus h }) := by
  unfold FilterForwardRequestWithCompletionRoutine WdfRequestSend
  simp only [WdfRequestSetCompletionRoutine, WdfRequestFormatRequestUsingCurrentType,
    List.append_assoc, List.singleton_append, List.nil_append, List.cons_append]
  cases h : env (s.trace ++ [Event.RequestFormatUsingCurrentType Request,
      Event.RequestSetCompletionRoutine Request]) Request Target
      SendOptions.NO_SEND_OPTIONS <;>
    simp [h, WdfRequestComplete, WdfRequestGetStatus]

theorem FilterForwardRequest_trace (env : IoTargetBehaviour) (s : DriverState)
    (Request : WDFREQUEST) (Target : WDFIOTARGET) :
    (FilterForwardRequest env s Request Target).trace =
      s.trace ++
        (match env s.trace Request Target SendOptions.SEND_AND_FORGET with
         | SendOutcome.accepted =>
             [Event.RequestSend Request Target SendOptions.SEND_AND_FORGET]
         | SendOutcome.rejected E =>
             [Event.RequestSend Request Target SendOptions.SEND_AND_FORGET,
              Event.RequestComplete Request E]) := by
  rw [FilterForwardRequest_eq]
  cases env s.trace Request Target SendOptions.SEND_AND_FORGET <;> rfl

theorem FilterForwardRequest_capture (env : IoTargetBehaviour) (s : DriverState)
    (Request : WDFREQUEST) (Target : WDFIOTARGET) :
    (FilterForwardRequest env s Request Target).g_aMouseData = s.g_aMouseData ∧
    (FilterForwardRequest env s Request Target).g_lMouseDataLength = s.g_lMouseDataLength := by
  rw [FilterForwardRequest_eq]
  cases env s.trace Request Target SendOptions.SEND_AND_FORGET <;> exact ⟨rfl, rfl⟩

theorem FilterForwardRequest_submissions (env : IoTargetBehaviour) (s : DriverState)
    (Request : WDFREQUEST) (Target : WDFIOTARGET) :
    ∃ evs, (FilterForwardRequest env s Request Target).trace = s.trace ++ evs ∧
      submissions evs = [(Request, Target)] := by
  refine ⟨_, FilterForwardRequest_trace env s Request Target, ?_⟩
  cases env s.trace Request Target SendOptions.SEND_AND_FORGET <;> rfl

theorem FilterForwardRequestWithCompletionRoutine_trace (env : IoTargetBehaviour)
    (s : DriverState) (Request : WDFREQUEST) (Target : WDFIOTARGET) :
    (FilterForwardRequestWithCompletionRoutine env s Request Target).trace =
      s.trace ++
        (match env (s.trace ++ [Event.RequestFormatUsingCurrentType Request,
            Event.RequestSetCompletionRoutine Request]) Request Target
            SendOptions.NO_SEND_OPTIONS with
         | SendOutcome.accepted =>
             [Event.RequestFormatUsingCurrentType Request,
              Event.RequestSetCompletionRoutine Request,
              Event.RequestSend Request Target SendOptions.NO_SEND_OPTIONS]
         | SendOutcome.rejected E =>
             [Event.RequestFormatUsingCurrentType Request,
              Event.RequestSetCompletionRoutine Request,
              Event.RequestSend Request Target SendOptions.NO_SEND_OPTIONS,
              Event.RequestComplete Request E]) := by
  rw [FilterForwardRequestWithCompletionRoutine_eq]
  cases env (s.trace ++ [Event.RequestFormatUsingCurrentType Request,
      Event.RequestSetCompletionRoutine Request]) Request Target
      SendOptions.NO_SEND_OPTIONS <;> rfl

theorem FilterForwardRequestWithCompletionRoutine_submissions (env : IoTargetBehaviour)
    (s : DriverState) (Request : WDFREQUEST) (Target : WDFIOTARGET) :
    ∃ evs, (FilterForwardRequestWithCompletionRoutine env s Request Target).trace =
        s.trace ++ evs ∧ submissions evs = [(Request, Target)] := by
  refine ⟨_, FilterForwardRequestWithCompletionRoutine_trace env s Request Target, ?_⟩
  cases env (s.trace ++ [Event.RequestFormatUsingCurrentType Request,
      Event.RequestSetCompletionRoutine Request]) Request Target
      SendOptions.NO_SEND_OPTIONS <;> rfl

theorem FilterForwardRequestWithCompletionRoutine_capture (env : IoTargetBehaviour)
    (s : DriverState) (Request : WDFREQUEST) (Target : WDFIOTARGET) :
    (FilterForwardRequestWithCompletionRoutine env s Request Target).g_aMouseData =
      s.g_aMouseData ∧
    (FilterForwardRequestWithCompletionRoutine env s Request Target).g_lMouseDataLength =
      s.g_lMouseDataLength := by
  rw [FilterForwardRequestWithCompletionRoutine_eq]
  cases env (s.trace ++ [Event.RequestFormatUsingCurrentType Request,
      Event.RequestSetCompletionRoutine Request]) Request Target
      SendOptions.NO_SEND_OPTIONS <;> exact ⟨rfl, rfl⟩

/-- The early completion of line 411 is never taken: the handler forwards. -/
theorem FilterEvtIoDeviceControl_eq (cfg : Bool) (env : IoTargetBehaviour) (s : DriverState)
    (Queue : WDFQUEUE) (Request : WDFREQUEST) (O I IoControlCode : Nat) :
    FilterEvtIoDeviceControl cfg env s Queue Request O I IoControlCode =
      if cfg = true then
        FilterForwardRequestWithCompletionRoutine env s Request
          (WdfDeviceGetIoTarget (WdfIoQueueGetDevice Queue))
      else
        FilterForwardRequest env s Request (WdfDeviceGetIoTarget (WdfIoQueueGetDevice Queue)) := by
  simp [FilterEvtIoDeviceControl, NT_SUCCESS, STATUS_SUCCESS]

/-! ## The capture site -/

theorem advanceCursor_eq (s : DriverState) (c : Nat) (hc : c < MOUSE_ARRAY_LENGTH)
    (h : s.g_lMouseDataLength = (c : Int)) :
    advanceCursor s =
      some { s with g_lMouseDataLength := (((c + 1) % MOUSE_ARRAY_LENGTH : Nat) : Int) } := by
  unfold advanceCursor
  simp only [MOUSE_ARRAY_LENGTH] at hc ⊢
  have h1 : ¬ (s.g_lMouseDataLength + 1 > LONG_MAX) := by
    rw [h]; unfold LONG_MAX; omega
  rw [if_neg h1]
  by_cases h2 : c + 1 < 255
  · have h3 : ¬ ((c : Int) + 1 ≥ ((255 : Nat) : Int)) := by omega
    simp only [h, h3, if_false, Nat.mod_eq_of_lt h2]
    rfl
  · have h3 : (c : Int) + 1 ≥ ((255 : Nat) : Int) := by omega
    have h4 : (c + 1) % 255 = 0 := by omega
    simp only [h, h3, if_true, h4]
    rfl

theorem copyToCursorSlot_eq (s : DriverState) (c : Nat) (hc : c < MOUSE_ARRAY_LENGTH)
    (h : s.g_lMouseDataLength = (c : Int)) (pUrb : URB) (Source : Nat → BYTE)
    (hb : pUrb.TransferBuffer = some Source) :
    copyToCursorSlot s pUrb =
      some { s with g_aMouseData := Function.update s.g_aMouseData ⟨c, hc⟩ pUrb.payload } := by
  unfold copyToCursorSlot
  have h1 : 0 ≤ s.g_lMouseDataLength ∧ s.g_lMouseDataLength < (MOUSE_ARRAY_LENGTH : Int) := by
    rw [h]; simp only [MOUSE_ARRAY_LENGTH] at hc ⊢; omega
  rw [dif_pos h1]
  have h2 : (⟨s.g_lMouseDataLength.toNat, by omega⟩ : Fin MOUSE_ARRAY_LENGTH) = ⟨c, hc⟩ := by
    apply Fin.ext
    simp [h]
  have h3 : ∀ d : tMouseData, RtlCopyMemory d Source MOUSE_DATA_DEFAULT = pUrb.payload := by
    intro d
    funext j
    simp [RtlCopyMemory, URB.payload, hb, j.isLt]
  simp only [hb, h2, h3]

theorem copyToCursorSlot_null (s : DriverState) (pUrb : URB)
    (hb : pUrb.TransferBuffer = none) : copyToCursorSlot s pUrb = none := by
  unfold copyToCursorSlot
  split
  · simp only [hb]
  · rfl

theorem payload_of_buffer (pUrb : URB) (Source : Nat → BYTE)
    (hb : pUrb.TransferBuffer = some Source) : pUrb.payload = fun j => Source j.val := by
  funext j
  simp [URB.payload, hb]

theorem qualifies_iff (u : URB) :
    u.qualifies = true ↔
      u.Function = URB_FUNCTION_BULK_OR_INTERRUPT_TRANSFER ∧
      u.TransferBufferLength = MOUSE_DATA_DEFAULT ∧
      u.TransferFlags &&& USBD_TRANSFER_DIRECTION_IN ≠ 0 := by
  simp [URB.qualifies, and_assoc]

theorem caseBulkOrInterruptTransfer_capture (s : DriverState) (c : Nat)
    (hc : c < MOUSE_ARRAY_LENGTH) (h : s.g_lMouseDataLength = (c : Int)) (pUrb : URB)
    (hl : pUrb.TransferBufferLength = MOUSE_DATA_DEFAULT)
    (hd : pUrb.TransferFlags &&& USBD_TRANSFER_DIRECTION_IN ≠ 0)
    (Source : Nat → BYTE) (hb : pUrb.TransferBuffer = some Source) :
    caseBulkOrInterruptTransfer s pUrb =
      some { s with
        g_lMouseDataLength := (((c + 1) % MOUSE_ARRAY_LENGTH : Nat) : Int)
        g_aMouseData := Function.update s.g_aMouseData
          ⟨(c + 1) % MOUSE_ARRAY_LENGTH, Nat.mod_lt _ (by decide)⟩ pUrb.payload } := by
  unfold caseBulkOrInterruptTransfer
  rw [if_neg (by simpa using hl), advanceCursor_eq s c hc h]
  simp only [if_neg hd]
  rw [copyToCursorSlot_eq _ ((c + 1) % MOUSE_ARRAY_LENGTH) (Nat.mod_lt _ (by decide)) rfl
    pUrb Source hb]

theorem caseBulkOrInterruptTransfer_null (s : DriverState) (c : Nat)
    (hc : c < MOUSE_ARRAY_LENGTH) (h : s.g_lMouseDataLength = (c : Int)) (pUrb : URB)
    (hl : pUrb.TransferBufferLength = MOUSE_DATA_DEFAULT)
    (hd : pUrb.TransferFlags &&& USBD_TRANSFER_DIRECTION_IN ≠ 0)
    (hb : pUrb.TransferBuffer = none) :
    caseBulkOrInterruptTransfer s pUrb = none := by
  unfold caseBulkOrInterruptTransfer
  rw [if_neg (by simpa using hl), advanceCursor_eq s c hc h]
  simp only [if_neg hd]
  exact copyToCursorSlot_null _ pUrb hb

theorem caseBulkOrInterruptTransfer_outbound (s : DriverState) (c : Nat)
    (hc : c < MOUSE_ARRAY_LENGTH) (h : s.g_lMouseDataLength = (c : Int)) (pUrb : URB)
    (hl : pUrb.TransferBufferLength = MOUSE_DATA_DEFAULT)
    (hd : pUrb.TransferFlags &&& USBD_TRANSFER_DIRECTION_IN = 0) :
    caseBulkOrInterruptTransfer s pUrb =
      some { s with g_lMouseDataLength := (((c + 1) % MOUSE_ARRAY_LENGTH : Nat) : Int) } := by
  unfold caseBulkOrInterruptTransfer
  rw [if_neg (by simpa using hl), advanceCursor_eq s c hc h]
  simp only [if_pos hd]

theorem inspectRequest_of_urb (s : DriverState) (Request : WDFREQUEST) (pUrb : URB)
    (hu : requestUrb Request = some pUrb) :
    inspectRequest s Request IOCTL_INTERNAL_USB_SUBMIT_URB =
      if pUrb.Function = URB_FUNCTION_BULK_OR_INTERRUPT_TRANSFER then
        caseBulkOrInterruptTransfer s pUrb
      else some s := by
  unfold requestUrb at hu
  unfold inspectRequest WdfRequestWdmGetIrp IoGetCurrentIrpStackLocation
  cases hi : Request.Irp with
  | none => simp [hi] at hu
  | some pIrp =>
    simp only [hi] at hu
    cases hl : pIrp.CurrentStackLocation with
    | none => simp [hl] at hu
    | some location =>
      simp only [hl] at hu
      simp [hl, hu]

theorem inspectRequest_of_no_urb (s : DriverState) (Request : WDFREQUEST)
    (IoControlCode : Nat) (hu : requestUrb Request = none) :
    inspectRequest s Request IoControlCode = some s := by
  unfold requestUrb at hu
  unfold inspectRequest WdfRequestWdmGetIrp IoGetCurrentIrpStackLocation
  cases hi : Request.Irp with
  | none => rfl
  | some pIrp =>
    simp only [hi] at hu
    cases hl : pIrp.CurrentStackLocation with
    | none => simp [hl]
    | some location =>
      simp only [hl] at hu
      simp [hl, hu]

theorem inspectRequest_of_other_code (s : DriverState) (Request : WDFREQUEST)
    (IoControlCode : Nat) (hcode : IoControlCode ≠ IOCTL_INTERNAL_USB_SUBMIT_URB) :
    inspectRequest s Request IoControlCode = some s := by
  unfold inspectRequest WdfRequestWdmGetIrp IoGetCurrentIrpStackLocation
  cases hi : Request.Irp with
  | none => rfl
  | some pIrp =>
    cases hl : pIrp.CurrentStackLocation with
    | none => simp [hl]
    | some location => simp [hl, hcode]

/-- With the cursor inside the array and a buffer to read where line 302 is reached,
the inspection does not run into undefined behaviour, keeps the cursor inside the array
and calls nothing in the framework. -/
theorem inspectRequest_defined (s : DriverState) (Request : WDFREQUEST) (IoControlCode : Nat)
    (hc : 0 ≤ s.g_lMouseDataLength ∧ s.g_lMouseDataLength < (MOUSE_ARRAY_LENGTH : Int))
    (hr : ∀ u, IoControlCode = IOCTL_INTERNAL_USB_SUBMIT_URB → requestUrb Request = some u →
      u.qualifies = true → ∃ Source, u.TransferBuffer = some Source) :
    ∃ s1, inspectRequest s Request IoControlCode = some s1 ∧ s1.trace = s.trace ∧
      s1.requestStatus = s.requestStatus ∧
      0 ≤ s1.g_lMouseDataLength ∧ s1.g_lMouseDataLength < (MOUSE_ARRAY_LENGTH : Int) := by
  by_cases hcode : IoControlCode = IOCTL_INTERNAL_USB_SUBMIT_URB
  · subst hcode
    cases hu : requestUrb Request with
    | none => exact ⟨s, inspectRequest_of_no_urb s Request _ hu, rfl, rfl, hc⟩
    | some pUrb =>
      rw [inspectRequest_of_urb s Request pUrb hu]
      by_cases hf : pUrb.Function = URB_FUNCTION_BULK_OR_INTERRUPT_TRANSFER
      · rw [if_pos hf]
        by_cases hl : pUrb.TransferBufferLength = MOUSE_DATA_DEFAULT
        · obtain ⟨c, hcn⟩ := Int.eq_ofNat_of_zero_le hc.1
          have hc255 : c < MOUSE_ARRAY_LENGTH := by
            have := hc.2
            simp only [MOUSE_ARRAY_LENGTH] at this ⊢
            omega
          have hm : (c + 1) % MOUSE_ARRAY_LENGTH < MOUSE_ARRAY_LENGTH :=
            Nat.mod_lt _ (by decide)
          by_cases hd : pUrb.TransferFlags &&& USBD_TRANSFER_DIRECTION_IN = 0
          · rw [caseBulkOrInterruptTransfer_outbound s c hc255 hcn pUrb hl hd]
            exact ⟨_, rfl, rfl, rfl, by simp only; omega, by simp only [MOUSE_ARRAY_LENGTH]; omega⟩
          · obtain ⟨Source, hb⟩ := hr pUrb rfl hu ((qualifies_iff pUrb).2 ⟨hf, hl, hd⟩)
            rw [caseBulkOrInterruptTransfer_capture s c hc255 hcn pUrb hl hd Source hb]
            exact ⟨_, rfl, rfl, rfl, by simp only; omega, by simp only [MOUSE_ARRAY_LENGTH]; omega⟩
        · refine ⟨s, ?_, rfl, rfl, hc⟩
          unfold caseBulkOrInterruptTransfer
          rw [if_pos hl]
      · rw [if_neg hf]
        exact ⟨s, rfl, rfl, rfl, hc⟩
  · exact ⟨s, inspectRequest_of_other_code s Request _ hcode, rfl, rfl, hc⟩

/-- When the inspection returns, it has kept the cursor inside the array. -/
theorem inspectRequest_cursor (s s1 : DriverState) (Request : WDFREQUEST)
    (IoControlCode : Nat)
    (hc : 0 ≤ s.g_lMouseDataLength ∧ s.g_lMouseDataLength < (MOUSE_ARRAY_LENGTH : Int))
    (h1 : inspectRequest s Request IoControlCode = some s1) :
    0 ≤ s1.g_lMouseDataLength ∧ s1.g_lMouseDataLength < (MOUSE_ARRAY_LENGTH : Int) := by
  by_cases hr : ∀ u, IoControlCode = IOCTL_INTERNAL_USB_SUBMIT_URB →
      requestUrb Request = some u → u.qualifies = true →
      ∃ Source, u.TransferBuffer = some Source
  · obtain ⟨s2, h2, _, _, hc2⟩ := inspectRequest_defined s Request IoControlCode hc hr
    rw [h1] at h2
    cases h2
    exact hc2
  · exfalso
    push_neg at hr
    obtain ⟨u, hcode, hu, hq, hnone⟩ := hr
    subst hcode
    obtain ⟨hf, hl, hd⟩ := (qualifies_iff u).1 hq
    have hb : u.TransferBuffer = none := by
      cases hb : u.TransferBuffer with
      | none => rfl
      | some Source => exact absurd hb (hnone Source)
    obtain ⟨c, hcn⟩ := Int.eq_ofNat_of_zero_le hc.1
    have hc255 : c < MOUSE_ARRAY_LENGTH := by
      have := hc.2
      simp only [MOUSE_ARRAY_LENGTH] at this ⊢
      omega
    rw [inspectRequest_of_urb s Request u hu, if_pos hf,
      caseBulkOrInterruptTransfer_null s c hc255 hcn u hl hd hb] at h1
    cases h1

theorem readable_iff (d : Dispatch) :
    d.readable = true ↔
      ∀ u, d.urb = some u → u.qualifies = true → ∃ Source, u.TransferBuffer = some Source := by
  unfold Dispatch.readable
  cases hu : d.urb with
  | none => simp
  | some u =>
    cases hq : u.qualifies <;> cases hb : u.TransferBuffer <;> simp [hq, hb]

/-! ## Properties of a single request -/

/-- C1: from a state whose cursor `c` lies in `[0,255)`, an internal device control with
code `IOCTL_INTERNAL_USB_SUBMIT_URB` whose URB is a bulk or interrupt transfer of
length 8 with the inbound flag set leaves the cursor at `c+1` (0 when `c+1 >= 255`), the
slot at the new cursor equal to the eight payload bytes, and every other slot as it was. -/
theorem capture_advances_then_writes (env : IoTargetBehaviour) (s : DriverState)
    (Queue : WDFQUEUE) (Request : WDFREQUEST) (OutputBufferLength InputBufferLength : Nat)
    (pUrb : URB)
    (hc : 0 ≤ s.g_lMouseDataLength ∧ s.g_lMouseDataLength < 255)
    (hu : requestUrb Request = some pUrb)
    (hf : pUrb.Function = URB_FUNCTION_BULK_OR_INTERRUPT_TRANSFER)
    (hl : pUrb.TransferBufferLength = 8)
    (hd : pUrb.TransferFlags &&& USBD_TRANSFER_DIRECTION_IN ≠ 0)
    (payload : Nat → BYTE) (hb : pUrb.TransferBuffer = some payload) :
    ∃ s1, FilterEvtWdfIoQueueIoInternalDeviceControl env s Queue Request OutputBufferLength
        InputBufferLength IOCTL_INTERNAL_USB_SUBMIT_URB = some s1 ∧
      s1.g_lMouseDataLength =
        (if s.g_lMouseDataLength + 1 ≥ 255 then 0 else s.g_lMouseDataLength + 1) ∧
      ∃ i : Fin MOUSE_ARRAY_LENGTH, (i.val : Int) = s1.g_lMouseDataLength ∧
        s1.g_aMouseData i = (fun j => payload j.val) ∧
        ∀ k, k ≠ i → s1.g_aMouseData k = s.g_aMouseData k := by
  obtain ⟨c, hcn⟩ := Int.eq_ofNat_of_zero_le hc.1
  have hc255 : c < MOUSE_ARRAY_LENGTH := by
    have := hc.2
    simp only [MOUSE_ARRAY_LENGTH]
    omega
  unfold FilterEvtWdfIoQueueIoInternalDeviceControl
  rw [inspectRequest_of_urb s Request pUrb hu, if_pos hf,
    caseBulkOrInterruptTransfer_capture s c hc255 hcn pUrb hl hd payload hb]
  refine ⟨_, rfl, ?_, ⟨(c + 1) % MOUSE_ARRAY_LENGTH, Nat.mod_lt _ (by decide)⟩, ?_, ?_, ?_⟩
  · rw [(FilterForwardRequest_capture _ _ _ _).2, hcn]
    simp only [MOUSE_ARRAY_LENGTH] at hc255 ⊢
    split <;> omega
  · rw [(FilterForwardRequest_capture _ _ _ _).2]
  · rw [(FilterForwardRequest_capture _ _ _ _).1]
    simp only [Function.update_same]
    exact payload_of_buffer pUrb payload hb
  · intro k hk
    rw [(FilterForwardRequest_capture _ _ _ _).1]
    simp only [Function.update_noteq hk]

/-- Witness of C1: the payload `[1,2,3,4,5,6,7,8]` submitted in the initial state. -/
theorem capture_advances_then_writes_witness :
    ∃ s1, FilterEvtWdfIoQueueIoInternalDeviceControl acceptAll DriverState.initial sampleQueue
        (requestWithUrb 1 (inboundReport [1, 2, 3, 4, 5, 6, 7, 8])) 0 0
        IOCTL_INTERNAL_USB_SUBMIT_URB = some s1 ∧
      s1.g_lMouseDataLength =
        (if DriverState.initial.g_lMouseDataLength + 1 ≥ 255 then 0
         else DriverState.initial.g_lMouseDataLength + 1) ∧
      ∃ i : Fin MOUSE_ARRAY_LENGTH, (i.val : Int) = s1.g_lMouseDataLength ∧
        s1.g_aMouseData i =
          (fun j => ([1, 2, 3, 4, 5, 6, 7, 8] : List BYTE).getD j.val 0) ∧
        ∀ k, k ≠ i → s1.g_aMouseData k = DriverState.initial.g_aMouseData k :=
  capture_advances_then_writes acceptAll DriverState.initial sampleQueue
    (requestWithUrb 1 (inboundReport [1, 2, 3, 4, 5, 6, 7, 8])) 0 0
    (inboundReport [1, 2, 3, 4, 5, 6, 7, 8]) (by decide) rfl rfl rfl (by decide)
    (fun n => ([1, 2, 3, 4, 5, 6, 7, 8] : List BYTE).getD n 0) rfl

/-- C5: a request that is not a bulk or interrupt transfer of length 8 submitted with
`IOCTL_INTERNAL_USB_SUBMIT_URB` (a transfer of another length whatever its direction,
another URB function, another control code, or no URB at all) is passed through: the
inspection leaves the whole state as it is, so the cursor and all slots are unchanged and
no status is produced, and the handler forwards the request to the default target, the
only completion being that of a rejected submission with the status of the target. -/
theorem non_candidate_passes_through (env : IoTargetBehaviour) (s : DriverState)
    (Queue : WDFQUEUE) (Request : WDFREQUEST) (OutputBufferLength InputBufferLength : Nat)
    (IoControlCode : Nat)
    (h : ∀ u, IoControlCode = IOCTL_INTERNAL_USB_SUBMIT_URB → requestUrb Request = some u →
      u.Function = URB_FUNCTION_BULK_OR_INTERRUPT_TRANSFER → u.TransferBufferLength ≠ 8) :
    inspectRequest s Request IoControlCode = some s ∧
    ∃ s1, FilterEvtWdfIoQueueIoInternalDeviceControl env s Queue Request OutputBufferLength
        InputBufferLength IoControlCode = some s1 ∧
      s1 = FilterForwardRequest env s Request Queue.Device.IoTarget ∧
      s1.g_aMouseData = s.g_aMouseData ∧
      s1.g_lMouseDataLength = s.g_lMouseDataLength ∧
      s1.trace = s.trace ++
        (match env s.trace Request Queue.Device.IoTarget SendOptions.SEND_AND_FORGET with
         | SendOutcome.accepted =>
             [Event.RequestSend Request Queue.Device.IoTarget SendOptions.SEND_AND_FORGET]
         | SendOutcome.rejected E =>
             [Event.RequestSend Request Queue.Device.IoTarget SendOptions.SEND_AND_FORGET,
              Event.RequestComplete Request E]) := by
  have hi : inspectRequest s Request IoControlCode = some s := by
    by_cases hcode : IoControlCode = IOCTL_INTERNAL_USB_SUBMIT_URB
    · cases hu : requestUrb Request with
      | none => exact inspectRequest_of_no_urb s Request _ hu
      | some pUrb =>
        subst hcode
        rw [inspectRequest_of_urb s Request pUrb hu]
        by_cases hf : pUrb.Function = URB_FUNCTION_BULK_OR_INTERRUPT_TRANSFER
        · rw [if_pos hf]
          unfold caseBulkOrInterruptTransfer
          rw [if_pos (h pUrb rfl hu hf)]
        · rw [if_neg hf]
    · exact inspectRequest_of_other_code s Request _ hcode
  refine ⟨hi, _, ?_, rfl, ?_, ?_, ?_⟩
  · unfold FilterEvtWdfIoQueueIoInternalDeviceControl
    rw [hi]
    rfl
  · exact (FilterForwardRequest_capture _ _ _ _).1
  · exact (FilterForwardRequest_capture _ _ _ _).2
  · exact FilterForwardRequest_trace _ _ _ _

/-- Witness of C5: an inbound bulk or interrupt transfer of four bytes, rejected by the
target with status `-5`. -/
theorem non_candidate_passes_through_witness :
    inspectRequest DriverState.initial (requestWithUrb 2 shortReport)
      IOCTL_INTERNAL_USB_SUBMIT_URB = some DriverState.initial ∧
    ∃ s1, FilterEvtWdfIoQueueIoInternalDeviceControl (rejectAll (-5)) DriverState.initial
        sampleQueue (requestWithUrb 2 shortReport) 0 0 IOCTL_INTERNAL_USB_SUBMIT_URB =
          some s1 ∧
      s1 = FilterForwardRequest (rejectAll (-5)) DriverState.initial
        (requestWithUrb 2 shortReport) sampleQueue.Device.IoTarget ∧
      s1.g_aMouseData = DriverState.initial.g_aMouseData ∧
      s1.g_lMouseDataLength = DriverState.initial.g_lMouseDataLength ∧
      s1.trace = DriverState.initial.trace ++
        (match rejectAll (-5) DriverState.initial.trace (requestWithUrb 2 shortReport)
            sampleQueue.Device.IoTarget SendOptions.SEND_AND_FORGET with
         | SendOutcome.accepted =>
             [Event.RequestSend (requestWithUrb 2 shortReport) sampleQueue.Device.IoTarget
               SendOptions.SEND_AND_FORGET]
         | SendOutcome.rejected E =>
             [Event.RequestSend (requestWithUrb 2 shortReport) sampleQueue.Device.IoTarget
               SendOptions.SEND_AND_FORGET,
              Event.RequestComplete (requestWithUrb 2 shortReport) E]) :=
  non_candidate_passes_through (rejectAll (-5)) DriverState.initial sampleQueue
    (requestWithUrb 2 shortReport) 0 0 IOCTL_INTERNAL_USB_SUBMIT_URB
    (fun u _ hu _ => by
      have hu2 : shortReport = u := by
        simpa [requestUrb, requestWithUrb] using hu
      rw [← hu2]
      decide)

/-- A dispatch that has a buffer to read where line 302 is reached is submitted, as
received, to the default target of the device of the queue exactly once, whichever of
the four callbacks it arrives at. -/
theorem readable_dispatch_submitted_once (FORWARD_REQUEST_WITH_COMPLETION : Bool)
    (env : IoTargetBehaviour) (s : DriverState) (d : Dispatch)
    (hc : 0 ≤ s.g_lMouseDataLength ∧ s.g_lMouseDataLength < 255)
    (hr : d.readable = true) :
    ∃ s1, deliver FORWARD_REQUEST_WITH_COMPLETION env s d = some s1 ∧
      ∃ evs, s1.trace = s.trace ++ evs ∧
        submissions evs = [(d.request, WdfDeviceGetIoTarget (WdfIoQueueGetDevice d.queue))] := by
  cases d with
  | IoDefault Queue Request =>
    exact ⟨_, rfl, FilterForwardRequest_submissions _ _ _ _⟩
  | IoRead Queue Request Length =>
    exact ⟨_, rfl, FilterForwardRequest_submissions _ _ _ _⟩
  | IoInternalDeviceControl Queue Request O I IoControlCode =>
    have hr2 : ∀ u, IoControlCode = IOCTL_INTERNAL_USB_SUBMIT_URB →
        requestUrb Request = some u → u.qualifies = true →
        ∃ Source, u.TransferBuffer = some Source := by
      intro u hcode hu hq
      exact (readable_iff _).1 hr u (by simp [Dispatch.urb, hcode, hu]) hq
    obtain ⟨s0, h0, ht, _, _⟩ := inspectRequest_defined s Request IoControlCode hc hr2
    refine ⟨FilterForwardRequest env s0 Request (WdfDeviceGetIoTarget (WdfIoQueueGetDevice Queue)),
      ?_, ?_⟩
    · simp only [deliver, FilterEvtWdfIoQueueIoInternalDeviceControl, h0]
    · rw [← ht]
      exact FilterForwardRequest_submissions _ _ _ _
  | IoDeviceControl Queue Request O I IoControlCode =>
    refine ⟨_, rfl, ?_⟩
    rw [FilterEvtIoDeviceControl_eq]
    cases FORWARD_REQUEST_WITH_COMPLETION with
    | false => exact FilterForwardRequest_submissions _ _ _ _
    | true => exact FilterForwardRequestWithCompletionRoutine_submissions _ _ _ _

/-- C6 at an inbound bulk or interrupt transfer of eight bytes whose `TransferBuffer` is
`NULL` (the buffer is in `TransferBufferMDL`): the IRP, the stack location and the URB
are there, the request qualifies, and the handler reads through the `NULL` pointer at
line 302; it does not get to the forwarding call of line 352, so nothing is submitted. -/
theorem null_buffer_request_not_forwarded :
    requestUrb (requestWithUrb 4 mdlReport) = some mdlReport ∧
    mdlReport.qualifies = true ∧
    mdlReport.TransferBuffer = none ∧
    inspectRequest DriverState.initial (requestWithUrb 4 mdlReport)
      IOCTL_INTERNAL_USB_SUBMIT_URB = none ∧
    FilterEvtWdfIoQueueIoInternalDeviceControl acceptAll DriverState.initial sampleQueue
      (requestWithUrb 4 mdlReport) 0 0 IOCTL_INTERNAL_USB_SUBMIT_URB = none ∧
    deliver false acceptAll DriverState.initial
      (Dispatch.IoInternalDeviceControl sampleQueue (requestWithUrb 4 mdlReport) 0 0
        IOCTL_INTERNAL_USB_SUBMIT_URB) = none := by
  have hf : mdlReport.Function = URB_FUNCTION_BULK_OR_INTERRUPT_TRANSFER := rfl
  have hi : inspectRequest DriverState.initial (requestWithUrb 4 mdlReport)
      IOCTL_INTERNAL_USB_SUBMIT_URB = none := by
    rw [inspectRequest_of_urb DriverState.initial (requestWithUrb 4 mdlReport) mdlReport rfl,
      if_pos hf,
      caseBulkOrInterruptTransfer_null DriverState.initial 0 (by decide) rfl mdlReport rfl
        (by decide) rfl]
  refine ⟨rfl, by decide, rfl, hi, ?_, ?_⟩
  · unfold FilterEvtWdfIoQueueIoInternalDeviceControl
    rw [hi]
  · simp only [deliver, FilterEvtWdfIoQueueIoInternalDeviceControl, hi]

/-- C7: `FilterForwardRequest` submits the request; when the target rejects the
submission with status `E` it completes the request once, with `E`; when the target
accepts, it completes nothing; it never completes with a status of its own making. -/
theorem forward_completes_only_a_rejection (env : IoTargetBehaviour) (s : DriverState)
    (Request : WDFREQUEST) (Target : WDFIOTARGET) :
    (FilterForwardRequest env s Request Target).trace =
      s.trace ++
        (match env s.trace Request Target SendOptions.SEND_AND_FORGET with
         | SendOutcome.accepted =>
             [Event.RequestSend Request Target SendOptions.SEND_AND_FORGET]
         | SendOutcome.rejected E =>
             [Event.RequestSend Request Target SendOptions.SEND_AND_FORGET,
              Event.RequestComplete Request E]) ∧
    completions ((FilterForwardRequest env s Request Target).trace.drop s.trace.length) =
      (match env s.trace Request Target SendOptions.SEND_AND_FORGET with
       | SendOutcome.accepted => []
       | SendOutcome.rejected E => [(Request, E)]) := by
  refine ⟨FilterForwardRequest_trace env s Request Target, ?_⟩
  rw [FilterForwardRequest_trace, List.drop_left]
  cases env s.trace Request Target SendOptions.SEND_AND_FORGET <;> rfl

/-- C8: a request sent by `FilterForwardRequestWithCompletionRoutine` to a target that
rejects it with status `E`, or accepts it and later calls the registered routine once
with final status `S`, is completed exactly once: with `E` by the forwarding routine in
the first case, with `S` unchanged by `FilterRequestCompletionRoutine` in the second.
Neither routine depends on the capture buffer or changes it. -/
theorem intercepted_request_completed_once (env : IoTargetBehaviour) (s : DriverState)
    (Request : WDFREQUEST) (Target : WDFIOTARGET) (S : NTSTATUS) :
    completions ((interceptedLife env s Request Target S).trace.drop s.trace.length) =
      [(Request,
        match env (s.trace ++ [Event.RequestFormatUsingCurrentType Request,
            Event.RequestSetCompletionRoutine Request]) Request Target
            SendOptions.NO_SEND_OPTIONS with
        | SendOutcome.accepted => S
        | SendOutcome.rejected E => E)] ∧
    completions
        ((FilterForwardRequestWithCompletionRoutine env s Request Target).trace.drop
          s.trace.length) =
      (match env (s.trace ++ [Event.RequestFormatUsingCurrentType Request,
          Event.RequestSetCompletionRoutine Request]) Request Target
          SendOptions.NO_SEND_OPTIONS with
       | SendOutcome.accepted => []
       | SendOutcome.rejected E => [(Request, E)]) ∧
    (∀ (s1 : DriverState) (T : WDFIOTARGET) (params : WDF_REQUEST_COMPLETION_PARAMS),
      (FilterRequestCompletionRoutine s1 Request T params).trace =
        s1.trace ++ [Event.RequestComplete Request params.IoStatus.Status]) ∧
    (∀ (a : Fin MOUSE_ARRAY_LENGTH → tMouseData) (c : Int),
      FilterForwardRequestWithCompletionRoutine env (s.withCapture a c) Request Target =
        (FilterForwardRequestWithCompletionRoutine env s Request Target).withCapture a c) ∧
    (∀ (a : Fin MOUSE_ARRAY_LENGTH → tMouseData) (c : Int)
        (params : WDF_REQUEST_COMPLETION_PARAMS),
      FilterRequestCompletionRoutine (s.withCapture a c) Request Target params =
        (FilterRequestCompletionRoutine s Request Target params).withCapture a c) ∧
    (FilterForwardRequestWithCompletionRoutine env s Request Target).g_aMouseData =
      s.g_aMouseData ∧
    (FilterForwardRequestWithCompletionRoutine env s Request Target).g_lMouseDataLength =
      s.g_lMouseDataLength ∧
    (∀ params : WDF_REQUEST_COMPLETION_PARAMS,
      (FilterRequestCompletionRoutine s Request Target params).g_aMouseData = s.g_aMouseData ∧
      (FilterRequestCompletionRoutine s Request Target params).g_lMouseDataLength =
        s.g_lMouseDataLength) := by
  refine ⟨?_, ?_, fun _ _ _ => rfl, ?_, fun _ _ _ => rfl,
    (FilterForwardRequestWithCompletionRoutine_capture _ _ _ _).1,
    (FilterForwardRequestWithCompletionRoutine_capture _ _ _ _).2, fun _ => ⟨rfl, rfl⟩⟩
  · unfold interceptedLife
    simp only [FilterRequestCompletionRoutine, WdfRequestComplete]
    cases h : env (s.trace ++ [Event.RequestFormatUsingCurrentType Request,
        Event.RequestSetCompletionRoutine Request]) Request Target
        SendOptions.NO_SEND_OPTIONS <;>
      simp [h, FilterForwardRequestWithCompletionRoutine_trace, completions]
  · rw [FilterForwardRequestWithCompletionRoutine_trace, List.drop_left]
    cases env (s.trace ++ [Event.RequestFormatUsingCurrentType Request,
        Event.RequestSetCompletionRoutine Request]) Request Target
        SendOptions.NO_SEND_OPTIONS <;> rfl
  · intro a c
    rw [FilterForwardRequestWithCompletionRoutine_eq, FilterForwardRequestWithCompletionRoutine_eq]
    simp only [DriverState.withCapture]
    cases env (s.trace ++ [Event.RequestFormatUsingCurrentType Request,
        Event.RequestSetCompletionRoutine Request]) Request Target
        SendOptions.NO_SEND_OPTIONS <;> rfl

/-! ## Sequences of requests -/

theorem run_append (cfg : Bool) (env : IoTargetBehaviour) (ds es : List Dispatch) :
    ∀ s : DriverState, run cfg env s (ds ++ es) =
      match run cfg env s ds with
      | none => none
      | some s1 => run cfg env s1 es := by
  induction ds with
  | nil => intro s; rfl
  | cons d ds ih =>
    intro s
    simp only [List.cons_append, run]
    cases deliver cfg env s d with
    | none => rfl
    | some s1 => exact ih s1

theorem run_singleton (cfg : Bool) (env : IoTargetBehaviour) (s : DriverState) (d : Dispatch) :
    run cfg env s [d] = deliver cfg env s d := by
  simp only [run]
  cases deliver cfg env s d <;> rfl

theorem deliver_defined (cfg : Bool) (env : IoTargetBehaviour) (s : DriverState) (d : Dispatch)
    (hc : 0 ≤ s.g_lMouseDataLength ∧ s.g_lMouseDataLength < (MOUSE_ARRAY_LENGTH : Int))
    (hr : d.readable = true) :
    ∃ s1, deliver cfg env s d = some s1 := by
  obtain ⟨s1, h1, _⟩ := readable_dispatch_submitted_once cfg env s d hc hr
  exact ⟨s1, h1⟩

/-- When a handler returns, it has kept the cursor inside the array. -/
theorem deliver_cursor (cfg : Bool) (env : IoTargetBehaviour) (s s1 : DriverState)
    (d : Dispatch)
    (hc : 0 ≤ s.g_lMouseDataLength ∧ s.g_lMouseDataLength < (MOUSE_ARRAY_LENGTH : Int))
    (h1 : deliver cfg env s d = some s1) :
    0 ≤ s1.g_lMouseDataLength ∧ s1.g_lMouseDataLength < (MOUSE_ARRAY_LENGTH : Int) := by
  cases d with
  | IoDefault Queue Request =>
    simp only [deliver, FilterEvtWdfIoQueueIoDefault, Option.some.injEq] at h1
    rw [← h1, (FilterForwardRequest_capture _ _ _ _).2]
    exact hc
  | IoRead Queue Request Length =>
    simp only [deliver, FilterEvtWdfIoQueueIoRead, Option.some.injEq] at h1
    rw [← h1, (FilterForwardRequest_capture _ _ _ _).2]
    exact hc
  | IoInternalDeviceControl Queue Request O I IoControlCode =>
    simp only [deliver, FilterEvtWdfIoQueueIoInternalDeviceControl] at h1
    cases h0 : inspectRequest s Request IoControlCode with
    | none => simp [h0] at h1
    | some s0 =>
      simp only [h0, Option.some.injEq] at h1
      rw [← h1, (FilterForwardRequest_capture _ _ _ _).2]
      exact inspectRequest_cursor s s0 Request IoControlCode hc h0
  | IoDeviceControl Queue Request O I IoControlCode =>
    simp only [deliver, Option.some.injEq] at h1
    rw [FilterEvtIoDeviceControl_eq] at h1
    cases cfg with
    | false =>
      simp only [Bool.false_eq_true, if_false] at h1
      rw [← h1, (FilterForwardRequest_capture _ _ _ _).2]
      exact hc
    | true =>
      simp only [if_true] at h1
      rw [← h1, (FilterForwardRequestWithCompletionRoutine_capture _ _ _ _).2]
      exact hc

theorem run_cursor (cfg : Bool) (env : IoTargetBehaviour) (ds : List Dispatch) :
    ∀ s s1 : DriverState,
      0 ≤ s.g_lMouseDataLength ∧ s.g_lMouseDataLength < (MOUSE_ARRAY_LENGTH : Int) →
      run cfg env s ds = some s1 →
      0 ≤ s1.g_lMouseDataLength ∧ s1.g_lMouseDataLength < (MOUSE_ARRAY_LENGTH : Int) := by
  induction ds with
  | nil =>
    intro s s1 hc h1
    simp only [run, Option.some.injEq] at h1
    rw [← h1]
    exact hc
  | cons d ds ih =>
    intro s s1 hc h1
    simp only [run] at h1
    cases h0 : deliver cfg env s d with
    | none => simp [h0] at h1
    | some s0 =>
      simp only [h0] at h1
      exact ih s0 s1 (deliver_cursor cfg env s s0 d hc h0) h1

theorem run_defined (cfg : Bool) (env : IoTargetBehaviour) (ds : List Dispatch) :
    ∀ s : DriverState,
      0 ≤ s.g_lMouseDataLength ∧ s.g_lMouseDataLength < (MOUSE_ARRAY_LENGTH : Int) →
      (∀ d ∈ ds, d.readable = true) →
      ∃ s1, run cfg env s ds = some s1 := by
  induction ds with
  | nil => intro s _ _; exact ⟨s, rfl⟩
  | cons d ds ih =>
    intro s hc hr
    obtain ⟨s1, h1⟩ := deliver_defined cfg env s d hc (hr d (by simp))
    obtain ⟨s2, h2⟩ := ih s1 (deliver_cursor cfg env s s1 d hc h1)
      (fun e he => hr e (by simp [he]))
    exact ⟨s2, by simp only [run, h1, h2]⟩

theorem deliver_qualifying (cfg : Bool) (env : IoTargetBehaviour) (s : DriverState)
    (d : Dispatch) (c : Nat) (hc : c < MOUSE_ARRAY_LENGTH)
    (h : s.g_lMouseDataLength = (c : Int)) (hq : d.qualifies = true)
    (hr : d.readable = true) :
    ∃ s1, deliver cfg env s d = some s1 ∧
      s1.g_lMouseDataLength = (((c + 1) % MOUSE_ARRAY_LENGTH : Nat) : Int) ∧
      s1.g_aMouseData = Function.update s.g_aMouseData
        ⟨(c + 1) % MOUSE_ARRAY_LENGTH, Nat.mod_lt _ (by decide)⟩ d.payload := by
  cases d with
  | IoDefault Queue Request => simp [Dispatch.qualifies, Dispatch.urb] at hq
  | IoRead Queue Request Length => simp [Dispatch.qualifies, Dispatch.urb] at hq
  | IoDeviceControl Queue Request O I IoControlCode =>
    simp [Dispatch.qualifies, Dispatch.urb] at hq
  | IoInternalDeviceControl Queue Request O I IoControlCode =>
    by_cases hcode : IoControlCode = IOCTL_INTERNAL_USB_SUBMIT_URB
    · subst hcode
      cases hu : requestUrb Request with
      | none => simp [Dispatch.qualifies, Dispatch.urb, hu] at hq
      | some pUrb =>
        have hq2 : pUrb.qualifies = true := by
          simpa [Dispatch.qualifies, Dispatch.urb, hu] using hq
        obtain ⟨hf, hl, hd⟩ := (qualifies_iff pUrb).1 hq2
        obtain ⟨Source, hb⟩ :=
          (readable_iff _).1 hr pUrb (by simp [Dispatch.urb, hu]) hq2
        have hp : (Dispatch.IoInternalDeviceControl Queue Request O I
            IOCTL_INTERNAL_USB_SUBMIT_URB).payload = pUrb.payload := by
          simp [Dispatch.payload, Dispatch.urb, hu]
        have hdel : deliver cfg env s (Dispatch.IoInternalDeviceControl Queue Request O I
            IOCTL_INTERNAL_USB_SUBMIT_URB) =
            some (FilterForwardRequest env
              { s with
                g_lMouseDataLength := (((c + 1) % MOUSE_ARRAY_LENGTH : Nat) : Int)
                g_aMouseData := Function.update s.g_aMouseData
                  ⟨(c + 1) % MOUSE_ARRAY_LENGTH, Nat.mod_lt _ (by decide)⟩ pUrb.payload }
              Request (WdfDeviceGetIoTarget (WdfIoQueueGetDevice Queue))) := by
          simp only [deliver, FilterEvtWdfIoQueueIoInternalDeviceControl]
          rw [inspectRequest_of_urb s Request pUrb hu, if_pos hf,
            caseBulkOrInterruptTransfer_capture s c hc h pUrb hl hd Source hb]
        refine ⟨_, hdel, ?_, ?_⟩
        · rw [(FilterForwardRequest_capture _ _ _ _).2]
        · rw [(FilterForwardRequest_capture _ _ _ _).1, hp]
    · simp [Dispatch.qualifies, Dispatch.urb, hcode] at hq

/-- The ring: after `n` qualifying requests from cursor `c`, the cursor is `(c + n) % 255`,
each of the last 255 payloads sits in the row it was written to, and the rows that no
request reached are as before. -/
theorem run_qualifying (cfg : Bool) (env : IoTargetBehaviour) (s : DriverState) (c : Nat)
    (hc : c < MOUSE_ARRAY_LENGTH) (h : s.g_lMouseDataLength = (c : Int)) (ds : List Dispatch) :
    (∀ d ∈ ds, d.qualifies = true) → (∀ d ∈ ds, d.readable = true) →
    ∃ s1, run cfg env s ds = some s1 ∧
      s1.g_lMouseDataLength = (((c + ds.length) % MOUSE_ARRAY_LENGTH : Nat) : Int) ∧
      (∀ (j : Nat) (hj : j < ds.length), ds.length - j ≤ MOUSE_ARRAY_LENGTH →
        s1.g_aMouseData ⟨(c + 1 + j) % MOUSE_ARRAY_LENGTH, Nat.mod_lt _ (by decide)⟩ =
          ds[j].payload) ∧
      (∀ i : Fin MOUSE_ARRAY_LENGTH,
        (∀ j, j < ds.length → (c + 1 + j) % MOUSE_ARRAY_LENGTH ≠ i.val) →
        s1.g_aMouseData i = s.g_aMouseData i) := by
  induction ds using List.reverseRecOn with
  | nil =>
    intro _ _
    refine ⟨s, rfl, ?_, ?_, ?_⟩
    · simp only [List.length_nil, Nat.add_zero, Nat.mod_eq_of_lt hc, h]
    · intro j hj; simp at hj
    · intro i _; rfl
  | append_singleton ds d ih =>
    intro hq hr
    obtain ⟨s1, hrun, hcur, hrows, hrest⟩ :=
      ih (fun e he => hq e (by simp [he])) (fun e he => hr e (by simp [he]))
    have hm : (c + ds.length) % MOUSE_ARRAY_LENGTH < MOUSE_ARRAY_LENGTH :=
      Nat.mod_lt _ (by decide)
    obtain ⟨s2, hdel, hcur2, hdata2⟩ :=
      deliver_qualifying cfg env s1 d _ hm hcur (hq d (by simp)) (hr d (by simp))
    refine ⟨s2, ?_, ?_, ?_, ?_⟩
    · rw [run_append, hrun]
      simp only [run_singleton, hdel]
    · rw [hcur2]
      congr 1
      simp only [List.length_append, List.length_singleton, MOUSE_ARRAY_LENGTH]
      omega
    · intro j hj hlast
      rw [hdata2]
      simp only [List.length_append, List.length_singleton] at hj hlast
      by_cases hjn : j = ds.length
      · subst hjn
        have hidx : (⟨(c + 1 + ds.length) % MOUSE_ARRAY_LENGTH, Nat.mod_lt _ (by decide)⟩ :
            Fin MOUSE_ARRAY_LENGTH) =
            ⟨((c + ds.length) % MOUSE_ARRAY_LENGTH + 1) % MOUSE_ARRAY_LENGTH,
              Nat.mod_lt _ (by decide)⟩ := by
          apply Fin.ext
          simp only [MOUSE_ARRAY_LENGTH]
          omega
        rw [hidx, Function.update_same]
        simp
      · have hjlt : j < ds.length := by omega
        have hne : (⟨(c + 1 + j) % MOUSE_ARRAY_LENGTH, Nat.mod_lt _ (by decide)⟩ :
            Fin MOUSE_ARRAY_LENGTH) ≠
            ⟨((c + ds.length) % MOUSE_ARRAY_LENGTH + 1) % MOUSE_ARRAY_LENGTH,
              Nat.mod_lt _ (by decide)⟩ := by
          intro heq
          have := congrArg Fin.val heq
          simp only [MOUSE_ARRAY_LENGTH] at this hlast
          omega
        rw [Function.update_noteq hne, hrows j hjlt (by omega)]
        simp [List.getElem_append_left, hjlt]
    · intro i hi
      rw [hdata2]
      have hne : i ≠ ⟨((c + ds.length) % MOUSE_ARRAY_LENGTH + 1) % MOUSE_ARRAY_LENGTH,
          Nat.mod_lt _ (by decide)⟩ := by
        intro heq
        have h1 := hi ds.length (by simp)
        rw [heq] at h1
        simp only [MOUSE_ARRAY_LENGTH] at h1
        omega
      rw [Function.update_noteq hne]
      exact hrest i (fun j hj => hi j (by simp; omega))

theorem markerDispatch_qualifies (k : Nat) : (markerDispatch k).qualifies = true := by
  simp [markerDispatch, Dispatch.qualifies, Dispatch.urb, requestUrb, requestWithUrb,
    markerReport, inboundReport, URB.qualifies, USBD_TRANSFER_DIRECTION_IN]

theorem markerDispatch_readable (k : Nat) : (markerDispatch k).readable = true := by
  simp [markerDispatch, Dispatch.readable, Dispatch.urb, requestUrb, requestWithUrb,
    markerReport, inboundReport]

theorem markerDispatches_length (n : Nat) : (markerDispatches n).length = n := by
  simp [markerDispatches]

theorem markerDispatches_qualify (n : Nat) :
    ∀ d ∈ markerDispatches n, d.qualifies = true := by
  intro d hd
  simp only [markerDispatches, List.mem_map] at hd
  obtain ⟨k, _, rfl⟩ := hd
  exact markerDispatch_qualifies (k + 1)

theorem markerDispatches_readable (n : Nat) :
    ∀ d ∈ markerDispatches n, d.readable = true := by
  intro d hd
  simp only [markerDispatches, List.mem_map] at hd
  obtain ⟨k, _, rfl⟩ := hd
  exact markerDispatch_readable (k + 1)

theorem markerDispatches_getElem (n j : Nat) (hj : j < (markerDispatches n).length) :
    (markerDispatches n)[j] = markerDispatch (j + 1) := by
  simp [markerDispatches]

theorem markerDispatch_payload_zero (k : Nat) :
    (markerDispatch k).payload 0 = Fin.ofNat (k % 256) := by
  simp [markerDispatch, Dispatch.payload, Dispatch.urb, requestUrb, requestWithUrb,
    markerReport, inboundReport, URB.payload]

/-! ## The ring after many captures -/

/-- C3, as the code has it: from the initial buffer (cursor 0), after `N >= 255`
qualifying payloads handled one after another, each in the buffer its URB points to, the
cursor is `N mod 255` and slot `N mod 255` holds the `N`-th (newest) payload. -/
theorem newest_payload_in_slot_N_mod_255 (cfg : Bool) (env : IoTargetBehaviour)
    (ds : List Dispatch) (hN : 255 ≤ ds.length) (hq : ∀ d ∈ ds, d.qualifies = true)
    (hr : ∀ d ∈ ds, d.readable = true) :
    ∃ s1, run cfg env DriverState.initial ds = some s1 ∧
      s1.g_lMouseDataLength = ((ds.length % 255 : Nat) : Int) ∧
      s1.g_aMouseData ⟨ds.length % 255, Nat.mod_lt _ (by decide)⟩ =
        (ds.get ⟨ds.length - 1, by omega⟩).payload := by
  obtain ⟨s1, hrun, hcur, hrows, _⟩ :=
    run_qualifying cfg env DriverState.initial 0 (by decide) rfl ds hq hr
  refine ⟨s1, hrun, ?_, ?_⟩
  · rw [hcur]; simp
  · have h1 := hrows (ds.length - 1) (by omega) (by simp only [MOUSE_ARRAY_LENGTH]; omega)
    have hidx : (⟨(0 + 1 + (ds.length - 1)) % MOUSE_ARRAY_LENGTH, Nat.mod_lt _ (by decide)⟩ :
        Fin MOUSE_ARRAY_LENGTH) = ⟨ds.length % 255, Nat.mod_lt _ (by decide)⟩ := by
      apply Fin.ext
      simp only [MOUSE_ARRAY_LENGTH]
      omega
    rw [hidx] at h1
    rw [h1]
    simp only [List.get_eq_getElem]

/-- Witness of C3 as amended: the 256 marker reports; slot `256 mod 255 = 1` holds
report 256. -/
theorem newest_payload_in_slot_N_mod_255_witness :
    ∃ s1, run false acceptAll DriverState.initial (markerDispatches 256) = some s1 ∧
      s1.g_lMouseDataLength = (((markerDispatches 256).length % 255 : Nat) : Int) ∧
      s1.g_aMouseData ⟨(markerDispatches 256).length % 255, Nat.mod_lt _ (by decide)⟩ =
        ((markerDispatches 256).get ⟨(markerDispatches 256).length - 1,
          by rw [markerDispatches_length]; decide⟩).payload :=
  newest_payload_in_slot_N_mod_255 false acceptAll (markerDispatches 256)
    (by rw [markerDispatches_length]; decide) (markerDispatches_qualify 256)
    (markerDispatches_readable 256)

/-- C3 as stated fails: after the 256 marker reports, all qualifying, slot
`(256 - 1) mod 255 = 0` holds report 255 and not report 256, which is in slot 1. -/
theorem newest_payload_not_in_slot_N_minus_1 :
    (markerDispatches 256).length = 256 ∧
    (∀ d ∈ markerDispatches 256, d.qualifies = true) ∧
    ∃ s1, run false acceptAll DriverState.initial (markerDispatches 256) = some s1 ∧
      s1.g_aMouseData ⟨(256 - 1) % 255, by decide⟩ ≠ (markerDispatch 256).payload ∧
      s1.g_aMouseData ⟨(256 - 1) % 255, by decide⟩ = (markerDispatch 255).payload ∧
      s1.g_aMouseData ⟨1, by decide⟩ = (markerDispatch 256).payload := by
  refine ⟨markerDispatches_length 256, markerDispatches_qualify 256, ?_⟩
  obtain ⟨s1, hrun, _, hrows, _⟩ :=
    run_qualifying false acceptAll DriverState.initial 0 (by decide) rfl
      (markerDispatches 256) (markerDispatches_qualify 256) (markerDispatches_readable 256)
  have h254 := hrows 254 (by rw [markerDispatches_length]; decide)
    (by rw [markerDispatches_length]; decide)
  have h255 := hrows 255 (by rw [markerDispatches_length]; decide)
    (by rw [markerDispatches_length]; decide)
  rw [markerDispatches_getElem] at h254 h255
  refine ⟨s1, hrun, ?_, h254, h255⟩
  intro hbad
  have h0 : (markerDispatch 255).payload 0 = (markerDispatch 256).payload 0 := by
    rw [← hbad]
    exact (congrFun h254 0).symm
  rw [markerDispatch_payload_zero, markerDispatch_payload_zero] at h0
  revert h0
  decide

/-- C4: from the initial buffer (cursor 0), after `N >= 255` qualifying payloads handled
one after another, each in the buffer its URB points to, reading the 255 slots cyclically from just after the cursor gives the
last 255 payloads in write order, oldest first; every slot is read at exactly one
position, so each of these payloads is in exactly one slot; and every earlier payload,
which was written to slot `(j + 1) mod 255` as the `(j + 1)`-th write, has been
overwritten there by a later one. -/
theorem ring_holds_last_255_in_write_order (cfg : Bool) (env : IoTargetBehaviour)
    (ds : List Dispatch) (hN : 255 ≤ ds.length) (hq : ∀ d ∈ ds, d.qualifies = true)
    (hr : ∀ d ∈ ds, d.readable = true) :
    ∃ (s1 : DriverState) (c : Nat), run cfg env DriverState.initial ds = some s1 ∧
      c < 255 ∧ s1.g_lMouseDataLength = (c : Int) ∧
      List.ofFn (fun k : Fin 255 =>
          s1.g_aMouseData ⟨(c + 1 + k.val) % 255, Nat.mod_lt _ (by decide)⟩) =
        (ds.drop (ds.length - 255)).map Dispatch.payload ∧
      (∀ i : Fin 255, ∃! k : Fin 255, (c + 1 + k.val) % 255 = i.val) ∧
      (∀ (j : Nat) (hj : j + 255 < ds.length),
        (∃ sj, run cfg env DriverState.initial (ds.take (j + 1)) = some sj ∧
          sj.g_aMouseData ⟨(j + 1) % 255, Nat.mod_lt _ (by decide)⟩ =
            (ds.get ⟨j, by omega⟩).payload) ∧
        ∃ (j2 : Nat) (h2 : j2 < ds.length), j < j2 ∧ ds.length - 255 ≤ j2 ∧
          s1.g_aMouseData ⟨(j + 1) % 255, Nat.mod_lt _ (by decide)⟩ =
            (ds.get ⟨j2, h2⟩).payload) := by
  obtain ⟨s1, hrun, hcur, hrows, _⟩ :=
    run_qualifying cfg env DriverState.initial 0 (by decide) rfl ds hq hr
  refine ⟨s1, ds.length % 255, hrun, Nat.mod_lt _ (by decide), ?_, ?_, ?_, ?_⟩
  · rw [hcur]; simp
  · apply List.ext_getElem
    · simp only [List.length_ofFn, List.length_map, List.length_drop]
      omega
    · intro k h1 h2
      simp only [List.length_ofFn] at h1
      rw [List.getElem_ofFn, List.getElem_map, List.getElem_drop]
      have h3 := hrows (ds.length - 255 + k) (by omega) (by simp only [MOUSE_ARRAY_LENGTH]; omega)
      rw [← h3]
      refine congrArg s1.g_aMouseData (Fin.ext ?_)
      simp only [MOUSE_ARRAY_LENGTH]
      omega
  · intro i
    refine ⟨⟨(i.val + 254 - ds.length % 255) % 255, Nat.mod_lt _ (by decide)⟩, ?_, ?_⟩
    · have := i.isLt
      simp only
      omega
    · intro k hk
      apply Fin.ext
      have := i.isLt
      have := k.isLt
      simp only
      omega
  · intro j hj
    constructor
    · obtain ⟨sj, hrunj, _, hrowsj, _⟩ :=
        run_qualifying cfg env DriverState.initial 0 (by decide) rfl (ds.take (j + 1))
          (fun d hd => hq d (List.mem_of_mem_take hd))
          (fun d hd => hr d (List.mem_of_mem_take hd))
      have hlen : (ds.take (j + 1)).length = j + 1 := by
        rw [List.length_take]; omega
      have h3 := hrowsj j (by omega) (by simp only [MOUSE_ARRAY_LENGTH]; omega)
      refine ⟨sj, hrunj, ?_⟩
      have hidx : (⟨(j + 1) % 255, Nat.mod_lt _ (by decide)⟩ : Fin MOUSE_ARRAY_LENGTH) =
          ⟨(0 + 1 + j) % MOUSE_ARRAY_LENGTH, Nat.mod_lt _ (by decide)⟩ := by
        apply Fin.ext
        simp only [MOUSE_ARRAY_LENGTH]
        omega
      rw [hidx, h3]
      simp only [List.get_eq_getElem, List.getElem_take]
    · have hj2 : j + 255 * ((ds.length - 1 - j) / 255) < ds.length := by omega
      refine ⟨j + 255 * ((ds.length - 1 - j) / 255), hj2, by omega, by omega, ?_⟩
      have h3 := hrows (j + 255 * ((ds.length - 1 - j) / 255)) hj2
        (by simp only [MOUSE_ARRAY_LENGTH]; omega)
      have hidx : (⟨(j + 1) % 255, Nat.mod_lt _ (by decide)⟩ : Fin MOUSE_ARRAY_LENGTH) =
          ⟨(0 + 1 + (j + 255 * ((ds.length - 1 - j) / 255))) % MOUSE_ARRAY_LENGTH,
            Nat.mod_lt _ (by decide)⟩ := by
        apply Fin.ext
        simp only [MOUSE_ARRAY_LENGTH]
        omega
      rw [hidx, h3]
      simp only [List.get_eq_getElem]

/-- Witness of C4: the 256 marker reports. -/
theorem ring_holds_last_255_in_write_order_witness :
    ∃ (s1 : DriverState) (c : Nat),
      run false acceptAll DriverState.initial (markerDispatches 256) = some s1 ∧
      c < 255 ∧ s1.g_lMouseDataLength = (c : Int) ∧
      List.ofFn (fun k : Fin 255 =>
          s1.g_aMouseData ⟨(c + 1 + k.val) % 255, Nat.mod_lt _ (by decide)⟩) =
        ((markerDispatches 256).drop ((markerDispatches 256).length - 255)).map
          Dispatch.payload ∧
      (∀ i : Fin 255, ∃! k : Fin 255, (c + 1 + k.val) % 255 = i.val) ∧
      (∀ (j : Nat) (hj : j + 255 < (markerDispatches 256).length),
        (∃ sj, run false acceptAll DriverState.initial ((markerDispatches 256).take (j + 1)) =
            some sj ∧
          sj.g_aMouseData ⟨(j + 1) % 255, Nat.mod_lt _ (by decide)⟩ =
            ((markerDispatches 256).get ⟨j, by omega⟩).payload) ∧
        ∃ (j2 : Nat) (h2 : j2 < (markerDispatches 256).length), j < j2 ∧
          (markerDispatches 256).length - 255 ≤ j2 ∧
          s1.g_aMouseData ⟨(j + 1) % 255, Nat.mod_lt _ (by decide)⟩ =
            ((markerDispatches 256).get ⟨j2, h2⟩).payload) :=
  ring_holds_last_255_in_write_order false acceptAll (markerDispatches 256)
    (by rw [markerDispatches_length]; decide) (markerDispatches_qualify 256)
    (markerDispatches_readable 256)

/-! ## The cursor invariant -/

/-- C10: every state reached from the initial state by requests of any kind, handled one
after another, has its cursor in `[0,255)`; so in it the increment of line 295 does not
overflow the `LONG` and the row index of the copy of line 302 lies inside the array: the
copy is defined whenever its source is, and so is the handling of the next request.
Such states exist for every sequence of requests in which the copy has a buffer to read. -/
theorem cursor_stays_inside_array (cfg : Bool) (env : IoTargetBehaviour)
    (ds : List Dispatch) :
    (∀ s, run cfg env DriverState.initial ds = some s →
      0 ≤ s.g_lMouseDataLength ∧ s.g_lMouseDataLength < 255 ∧
      s.g_lMouseDataLength + 1 ≤ LONG_MAX ∧
      (∃ s1, advanceCursor s = some s1 ∧
        0 ≤ s1.g_lMouseDataLength ∧ s1.g_lMouseDataLength < 255 ∧
        ∀ (pUrb : URB) (Source : Nat → BYTE), pUrb.TransferBuffer = some Source →
          ∃ s2, copyToCursorSlot s1 pUrb = some s2) ∧
      ∀ d : Dispatch, d.readable = true → ∃ s1, deliver cfg env s d = some s1) ∧
    ((∀ d ∈ ds, d.readable = true) →
      ∃ s, run cfg env DriverState.initial ds = some s) := by
  refine ⟨?_, run_defined cfg env ds DriverState.initial (by decide)⟩
  intro s hrun
  have hc := run_cursor cfg env ds DriverState.initial s (by decide) hrun
  have hc2 : s.g_lMouseDataLength < 255 := hc.2
  obtain ⟨c, hcn⟩ := Int.eq_ofNat_of_zero_le hc.1
  have hc255 : c < MOUSE_ARRAY_LENGTH := by
    simp only [MOUSE_ARRAY_LENGTH]
    omega
  have hm : (c + 1) % MOUSE_ARRAY_LENGTH < MOUSE_ARRAY_LENGTH := Nat.mod_lt _ (by decide)
  refine ⟨hc.1, hc2, ?_, ?_, ?_⟩
  · unfold LONG_MAX
    omega
  · refine ⟨_, advanceCursor_eq s c hc255 hcn, ?_, ?_, ?_⟩
    · simp only
      omega
    · simp only [MOUSE_ARRAY_LENGTH] at hm ⊢
      omega
    · intro pUrb Source hb
      exact ⟨_, copyToCursorSlot_eq _ ((c + 1) % MOUSE_ARRAY_LENGTH) hm rfl pUrb Source hb⟩
  · intro d hr
    exact deliver_defined cfg env s d hc hr

/-- Witness of C10: the state reached by three marker reports. -/
theorem cursor_stays_inside_array_witness :
    ∃ s, run false acceptAll DriverState.initial (markerDispatches 3) = some s ∧
      0 ≤ s.g_lMouseDataLength ∧ s.g_lMouseDataLength < 255 ∧
      s.g_lMouseDataLength + 1 ≤ LONG_MAX :=
  match (cursor_stays_inside_array false acceptAll (markerDispatches 3)).2
      (markerDispatches_readable 3) with
  | ⟨s, hs⟩ =>
    ⟨s, hs,
      ((cursor_stays_inside_array false acceptAll (markerDispatches 3)).1 s hs).1,
      ((cursor_stays_inside_array false acceptAll (markerDispatches 3)).1 s hs).2.1,
      ((cursor_stays_inside_array false acceptAll (markerDispatches 3)).1 s hs).2.2.1⟩

/-! ## An outbound transfer of eight bytes -/

/-- C2 at an outbound bulk or interrupt transfer of eight bytes, which does not
qualify: handled in the initial state it copies nothing, yet the cursor goes from 0 to 1. -/
theorem outbound_transfer_moves_cursor :
    (outboundReport [1, 2, 3, 4, 5, 6, 7, 8]).qualifies = false ∧
    DriverState.initial.g_lMouseDataLength = 0 ∧
    ∃ s1, FilterEvtWdfIoQueueIoInternalDeviceControl acceptAll DriverState.initial sampleQueue
        (requestWithUrb 3 (outboundReport [1, 2, 3, 4, 5, 6, 7, 8])) 0 0
        IOCTL_INTERNAL_USB_SUBMIT_URB = some s1 ∧
      s1.g_lMouseDataLength = 1 ∧
      s1.g_aMouseData = DriverState.initial.g_aMouseData := by
  refine ⟨by decide, rfl, ?_⟩
  have hdel : FilterEvtWdfIoQueueIoInternalDeviceControl acceptAll DriverState.initial
      sampleQueue (requestWithUrb 3 (outboundReport [1, 2, 3, 4, 5, 6, 7, 8])) 0 0
      IOCTL_INTERNAL_USB_SUBMIT_URB =
      some (FilterForwardRequest acceptAll
        { DriverState.initial with g_lMouseDataLength := (((0 + 1) % MOUSE_ARRAY_LENGTH : Nat) : Int) }
        (requestWithUrb 3 (outboundReport [1, 2, 3, 4, 5, 6, 7, 8]))
        (WdfDeviceGetIoTarget (WdfIoQueueGetDevice sampleQueue))) := by
    have hf : (outboundReport [1, 2, 3, 4, 5, 6, 7, 8]).Function =
        URB_FUNCTION_BULK_OR_INTERRUPT_TRANSFER := rfl
    unfold FilterEvtWdfIoQueueIoInternalDeviceControl
    rw [inspectRequest_of_urb DriverState.initial
        (requestWithUrb 3 (outboundReport [1, 2, 3, 4, 5, 6, 7, 8]))
        (outboundReport [1, 2, 3, 4, 5, 6, 7, 8]) rfl,
      if_pos hf,
      caseBulkOrInterruptTransfer_outbound DriverState.initial 0 (by decide) rfl
        (outboundReport [1, 2, 3, 4, 5, 6, 7, 8]) rfl (by decide)]
  refine ⟨_, hdel, ?_, ?_⟩
  · rw [(FilterForwardRequest_capture _ _ _ _).2]
    rfl
  · rw [(FilterForwardRequest_capture _ _ _ _).1]

/-! ## Parallel dispatch -/

/-- A call that runs alone does what lines 288-304 do. -/
theorem runSchedule_alone (s : DriverState) (pUrb : URB) :
    (runSchedule [pUrb] { state := s, pcs := [0], writes := [] } [0, 0]).map
        Interleaving.state =
      caseBulkOrInterruptTransfer s pUrb := by
  unfold caseBulkOrInterruptTransfer
  by_cases hl : pUrb.TransferBufferLength = MOUSE_DATA_DEFAULT
  · cases ha : advanceCursor s with
    | none => simp [runSchedule, stepCall, hl, ha]
    | some s1 =>
      by_cases hd : pUrb.TransferFlags &&& USBD_TRANSFER_DIRECTION_IN = 0
      · simp [runSchedule, stepCall, hl, ha, hd]
      · cases hcp : copyToCursorSlot s1 pUrb <;>
          simp [runSchedule, stepCall, hl, ha, hd, hcp]
  · simp [runSchedule, stepCall, hl]

/-- C9 as stated fails: two calls with distinct qualifying marker payloads, started in the
initial state and interleaved so that both run lines 295-296 before either runs line
302, both copy into row 2; row 1 is never written, and the payload of the first call is
lost. -/
theorem parallel_captures_share_a_slot :
    (markerReport 1).qualifies = true ∧ (markerReport 2).qualifies = true ∧
    (markerReport 1).payload ≠ (markerReport 2).payload ∧
    ∃ x, runSchedule [markerReport 1, markerReport 2]
        { state := DriverState.initial, pcs := [0, 0], writes := [] } [0, 1, 0, 1] = some x ∧
      x.pcs = [2, 2] ∧ x.writes = [(0, 2), (1, 2)] ∧
      x.state.g_lMouseDataLength = 2 ∧
      x.state.g_aMouseData ⟨1, by decide⟩ = DriverState.initial.g_aMouseData ⟨1, by decide⟩ ∧
      x.state.g_aMouseData ⟨2, by decide⟩ = (markerReport 2).payload := by
  refine ⟨by decide, by decide, ?_, ?_⟩
  · intro hbad
    have h0 := congrFun hbad 0
    revert h0
    decide
  · refine ⟨_, rfl, rfl, rfl, rfl, ?_, ?_⟩
    · funext j
      revert j
      decide
    · funext j
      revert j
      decide

/-- C9, for calls that do not overlap: `K <= 255` qualifying requests, each with its
payload in the buffer its URB points to, handled one at a time, in any order, from a
cursor `c` in `[0,255)`: the `j`-th of them (from 0) moves the
cursor to `(c + 1 + j) mod 255` and writes that row; these `K` rows are pairwise distinct,
at the end each still holds the payload of its request, every other row is as before,
and the cursor has advanced by `K` modulo 255. -/
theorem serial_captures_use_distinct_slots (cfg : Bool) (env : IoTargetBehaviour)
    (s : DriverState) (ds : List Dispatch) (c : Nat) (hc : c < 255)
    (h : s.g_lMouseDataLength = (c : Int)) (hK : ds.length ≤ 255)
    (hq : ∀ d ∈ ds, d.qualifies = true) (hr : ∀ d ∈ ds, d.readable = true) :
    ∃ s1, run cfg env s ds = some s1 ∧
      s1.g_lMouseDataLength = (((c + ds.length) % 255 : Nat) : Int) ∧
      (∀ (j : Nat) (hj : j < ds.length),
        (∃ sj, run cfg env s (ds.take (j + 1)) = some sj ∧
          sj.g_lMouseDataLength = (((c + 1 + j) % 255 : Nat) : Int) ∧
          sj.g_aMouseData ⟨(c + 1 + j) % 255, Nat.mod_lt _ (by decide)⟩ =
            (ds.get ⟨j, hj⟩).payload) ∧
        s1.g_aMouseData ⟨(c + 1 + j) % 255, Nat.mod_lt _ (by decide)⟩ =
          (ds.get ⟨j, hj⟩).payload) ∧
      (∀ j k : Nat, j < ds.length → k < ds.length →
        (c + 1 + j) % 255 = (c + 1 + k) % 255 → j = k) ∧
      (∀ i : Fin 255, (∀ j, j < ds.length → (c + 1 + j) % 255 ≠ i.val) →
        s1.g_aMouseData i = s.g_aMouseData i) := by
  obtain ⟨s1, hrun, hcur, hrows, hrest⟩ := run_qualifying cfg env s c hc h ds hq hr
  refine ⟨s1, hrun, hcur, ?_, ?_, hrest⟩
  · intro j hj
    constructor
    · obtain ⟨sj, hrunj, hcurj, hrowsj, _⟩ :=
        run_qualifying cfg env s c hc h (ds.take (j + 1))
          (fun d hd => hq d (List.mem_of_mem_take hd))
          (fun d hd => hr d (List.mem_of_mem_take hd))
      have hlen : (ds.take (j + 1)).length = j + 1 := by
        rw [List.length_take]; omega
      refine ⟨sj, hrunj, ?_, ?_⟩
      · rw [hcurj, hlen]
        simp only [MOUSE_ARRAY_LENGTH]
        congr 2
        omega
      · rw [hrowsj j (by omega) (by simp only [MOUSE_ARRAY_LENGTH]; omega)]
        simp only [List.get_eq_getElem, List.getElem_take]
    · rw [hrows j hj (by simp only [MOUSE_ARRAY_LENGTH]; omega)]
      simp only [List.get_eq_getElem]
  · intro j k hj hk hjk
    omega

/-- Witness of C9 for calls that do not overlap: three marker reports from the initial
state. -/
theorem serial_captures_use_distinct_slots_witness :
    ∃ s1, run false acceptAll DriverState.initial (markerDispatches 3) = some s1 ∧
      s1.g_lMouseDataLength = (((0 + (markerDispatches 3).length) % 255 : Nat) : Int) ∧
      (∀ (j : Nat) (hj : j < (markerDispatches 3).length),
        (∃ sj, run false acceptAll DriverState.initial ((markerDispatches 3).take (j + 1)) =
            some sj ∧
          sj.g_lMouseDataLength = (((0 + 1 + j) % 255 : Nat) : Int) ∧
          sj.g_aMouseData ⟨(0 + 1 + j) % 255, Nat.mod_lt _ (by decide)⟩ =
            ((markerDispatches 3).get ⟨j, hj⟩).payload) ∧
        s1.g_aMouseData ⟨(0 + 1 + j) % 255, Nat.mod_lt _ (by decide)⟩ =
          ((markerDispatches 3).get ⟨j, hj⟩).payload) ∧
      (∀ j k : Nat, j < (markerDispatches 3).length → k < (markerDispatches 3).length →
        (0 + 1 + j) % 255 = (0 + 1 + k) % 255 → j = k) ∧
      (∀ i : Fin 255, (∀ j, j < (markerDispatches 3).length → (0 + 1 + j) % 255 ≠ i.val) →
        s1.g_aMouseData i = DriverState.initial.g_aMouseData i) :=
  serial_captures_use_distinct_slots false acceptAll DriverState.initial (markerDispatches 3)
    0 (by decide) rfl (by rw [markerDispatches_length]; decide) (markerDispatches_qualify 3)
    (markerDispatches_readable 3)

end UrbSniffer
